import Mathlib

/-!
Verification development for the xpu-smi measurement pipeline
(`core/src/data_logic`): the time-weighted-average rate handler
(`time_weighted_average_data_handler.cpp`) and the query-assembly layer
(`data_logic.cpp`, `utility.cpp`).

Machine integers are modelled as `Nat` with explicit wrap-around where the
source relies on unsigned arithmetic (`sub64`); `std::map` contents are
modelled as association lists iterated in list order, with `keysNodup` as
the map invariant where a proof needs it.
-/

set_option autoImplicit false

namespace Xpum

/-- Largest value of a C++ uint64, `std::numeric_limits<uint64_t>::max()`,
used throughout the source as the "no data" sentinel. -/
def U64MAX : Nat := 18446744073709551615

/-- Largest value of a C++ uint32, `std::numeric_limits<uint32_t>::max()`,
the "unresolved engine index" sentinel. -/
def U32MAX : Nat := 4294967295

/-- Wrap-around subtraction of two uint64 values (operands assumed < 2^64),
modelling `a - b` on `uint64_t`. -/
def sub64 (a b : Nat) : Nat := (18446744073709551616 + a - b) % 18446744073709551616

/-- Association-list lookup, modelling `std::map::find` / reads through
`operator[]` guarded by a `find` check. -/
def alookup {α β : Type} [DecidableEq α] (k : α) : List (α × β) → Option β
  | [] => none
  | (a, b) :: rest => if a = k then some b else alookup k rest

/-- Replace the value stored at key `k` (first occurrence, which is the only
one under the map invariant), modelling an in-place write through a map
reference. -/
def aupdate {α β : Type} [DecidableEq α] (k : α) (v : β) : List (α × β) → List (α × β)
  | [] => []
  | (a, b) :: rest => if a = k then (k, v) :: rest else (a, b) :: aupdate k v rest

/-- Insert-or-assign at key `k`, modelling `std::map::operator[] = v`. -/
def aset {α β : Type} [DecidableEq α] (k : α) (v : β) : List (α × β) → List (α × β)
  | [] => [(k, v)]
  | (a, b) :: rest => if a = k then (k, v) :: rest else (a, b) :: aset k v rest

/-- The keys of an association list are pairwise distinct (the `std::map`
invariant). -/
abbrev keysNodup {α β : Type} (l : List (α × β)) : Prop := (l.map Prod.fst).Nodup

/-! ## The time-weighted-average handler (`time_weighted_average_data_handler.cpp`) -/

/-- One raw counter reading: `SubdeviceRawData {raw_data, raw_timestamp}`. -/
structure RawEntry where
  raw_data : Nat
  raw_timestamp : Nat
  deriving DecidableEq

/-- The slice of `MeasurementData` used by `TimeWeightedAverageDataHandler`:
the device-level raw reading and derived current value, plus the
per-sub-device raw readings and derived current values. -/
structure HMD where
  hasRawDataOnDevice : Bool
  rawData : Nat
  rawTimestamp : Nat
  current : Nat
  subRaw : List (Nat × RawEntry)
  subCurrent : List (Nat × Nat)
  deriving DecidableEq

/-- `MeasurementData::getSubdeviceRawData`: the raw value stored for a
sub-device (the sentinel when absent; the source only calls it on present
keys). -/
def HMD.getSubdeviceRawData (md : HMD) (sd : Nat) : Nat :=
  match alookup sd md.subRaw with
  | some e => e.raw_data
  | none => U64MAX

/-- `MeasurementData::getSubdeviceDataRawTimestamp`. -/
def HMD.getSubdeviceDataRawTimestamp (md : HMD) (sd : Nat) : Nat :=
  match alookup sd md.subRaw with
  | some e => e.raw_timestamp
  | none => 0

/-- `MeasurementData::hasSubdeviceRawData`: some sub-device raw reading is
stored. -/
def HMD.hasSubdeviceRawData (md : HMD) : Bool := !md.subRaw.isEmpty

/-- Set the raw value stored at key `sd` to the no-data sentinel, keeping
the entry (first occurrence, the only one under the map invariant). -/
def clearRaw (sd : Nat) : List (Nat × RawEntry) → List (Nat × RawEntry)
  | [] => []
  | (a, e) :: rest =>
    if a = sd then (a, RawEntry.mk U64MAX e.raw_timestamp) :: rest
    else (a, e) :: clearRaw sd rest

/-- Modelled from the spec: `clearSubdeviceRawdata` lives in
`measurement_data`, which is not under `src/`. Per the spec (§4.1)
"per-sub-device counters are cleared independently — siblings retain their
baseline", so clearing sets exactly that sub-device's raw value to the
no-data sentinel and keeps the entry (and every sibling entry) in place. -/
def HMD.clearSubdeviceRawdata (md : HMD) (sd : Nat) : HMD :=
  { md with subRaw := clearRaw sd md.subRaw }

/-- `MeasurementData::setCurrent`. -/
def HMD.setCurrent (md : HMD) (v : Nat) : HMD := { md with current := v }

/-- `MeasurementData::setSubdeviceDataCurrent`. -/
def HMD.setSubdeviceDataCurrent (md : HMD) (sd v : Nat) : HMD :=
  { md with subCurrent := aset sd v md.subCurrent }

/-- `SharedData::getData()`: the per-device map handled in one update
cycle, keyed by device id string. -/
abbrev SharedData := List (String × HMD)

/-- Sub-device walk of `counterOverflowDetection` (lines 51-63): walk the
current sample's sub-device raw map while the previous sample contains the
key (the walk stops at the first missing key); clear the previous baseline
of any sub-device whose counter value went backwards (both values not being
the sentinel). -/
def detectSubLoop : HMD → List (Nat × RawEntry) → HMD
  | preMD, [] => preMD
  | preMD, (sd, e) :: rest =>
    if (alookup sd preMD.subRaw).isSome then
      detectSubLoop
        (if preMD.getSubdeviceRawData sd ≠ U64MAX ∧ e.raw_data ≠ U64MAX ∧
            e.raw_data < preMD.getSubdeviceRawData sd
         then preMD.clearSubdeviceRawdata sd else preMD) rest
    else preMD

/-- Device loop of `counterOverflowDetection` (lines 29-67). Returns `none`
when some device-level counter went backwards: the source then sets
`p_preData` to `nullptr` and returns at once, discarding the whole previous
snapshot (every device's baseline). -/
def detectLoop : SharedData → SharedData → Option SharedData
  | pre, [] => some pre
  | pre, (devId, md) :: rest =>
    match alookup devId pre with
    | none => detectLoop pre rest
    | some preMD =>
      if md.hasRawDataOnDevice ∧ preMD.hasRawDataOnDevice ∧
          preMD.rawData ≠ U64MAX ∧ md.rawData ≠ U64MAX ∧ md.rawData < preMD.rawData then
        none
      else
        detectLoop
          (if md.hasSubdeviceRawData ∧ preMD.hasSubdeviceRawData
           then aupdate devId (detectSubLoop preMD md.subRaw) pre
           else pre) rest

/-- `TimeWeightedAverageDataHandler::counterOverflowDetection`. -/
def counterOverflowDetection (preOpt : Option SharedData) (cur : SharedData) :
    Option SharedData :=
  match preOpt with
  | none => none
  | some pre => detectLoop pre cur

/-- Device-level part of `calculateData` (lines 80-93). -/
def calcDevicePart (preMD md : HMD) : HMD :=
  if md.hasRawDataOnDevice ∧ preMD.hasRawDataOnDevice then
    if preMD.rawData ≠ U64MAX ∧ md.rawData ≠ U64MAX then
      if sub64 md.rawTimestamp preMD.rawTimestamp ≠ 0 then
        md.setCurrent (sub64 md.rawData preMD.rawData / sub64 md.rawTimestamp preMD.rawTimestamp)
      else md
    else md
  else md

/-- One iteration of the sub-device loop of `calculateData`
(lines 102-112). -/
def calcSubStep (preMD md : HMD) (sd : Nat) (e : RawEntry) : HMD :=
  if preMD.getSubdeviceRawData sd ≠ U64MAX ∧ e.raw_data ≠ U64MAX then
    if sub64 e.raw_timestamp (preMD.getSubdeviceDataRawTimestamp sd) ≠ 0 then
      md.setSubdeviceDataCurrent sd
        (sub64 e.raw_data (preMD.getSubdeviceRawData sd) /
         sub64 e.raw_timestamp (preMD.getSubdeviceDataRawTimestamp sd))
    else md
  else md

/-- Sub-device loop of `calculateData` (lines 99-114): like the detection
loop, it stops at the first sub-device missing from the previous
baseline. -/
def calcSubLoop (preMD : HMD) : HMD → List (Nat × RawEntry) → HMD
  | md, [] => md
  | md, (sd, e) :: rest =>
    if (alookup sd preMD.subRaw).isSome then
      calcSubLoop preMD (calcSubStep preMD md sd e) rest
    else md

/-- Per-device body of `calculateData` (lines 77-118). -/
def calcDev1 (preMD md : HMD) : HMD :=
  let md1 := calcDevicePart preMD md
  if md1.hasSubdeviceRawData ∧ preMD.hasSubdeviceRawData
  then calcSubLoop preMD md1 md1.subRaw
  else md1

/-- `TimeWeightedAverageDataHandler::calculateData`. -/
def calculateData (preOpt : Option SharedData) (cur : SharedData) : SharedData :=
  match preOpt with
  | none => cur
  | some pre =>
    cur.map (fun p =>
      (p.1, match alookup p.1 pre with
            | none => p.2
            | some preMD => calcDev1 preMD p.2))

/-- Modelled from the spec: the base `DataHandler` class (not under `src/`)
stores the sample just handled as the baseline for the next update ("the
sample following the drop is treated as a fresh baseline", spec §8);
`handleData` (lines 121-129) runs `counterOverflowDetection` and then
`calculateData` against that baseline. -/
def step (preOpt : Option SharedData) (cur : SharedData) : SharedData × Option SharedData :=
  match preOpt with
  | none => (cur, some cur)
  | some pre =>
    match detectLoop pre cur with
    | none => (cur, some cur)
    | some pre2 =>
      let out := calculateData (some pre2) cur
      (out, some out)

/-- Process a sequence of raw samples through the handler, returning the
processed samples and the final baseline. -/
def runSamples (preOpt : Option SharedData) : List SharedData → List SharedData × Option SharedData
  | [] => ([], preOpt)
  | s :: rest =>
    let r1 := step preOpt s
    let r2 := runSamples r1.2 rest
    (r1.1 :: r2.1, r2.2)

/-! ## Basic lemmas about the map model -/

theorem sub64_self (a : Nat) : sub64 a a = 0 := by
  simp [sub64, Nat.add_sub_cancel]

theorem sub64_eq_sub {a b : Nat} (h1 : b ≤ a) (h2 : a < 18446744073709551616) :
    sub64 a b = a - b := by
  rw [sub64, Nat.add_sub_assoc h1, Nat.add_mod_left]
  exact Nat.mod_eq_of_lt (lt_of_le_of_lt (Nat.sub_le a b) h2)

theorem sub64_ne_zero {a b : Nat} (h1 : b < a) (h2 : a < 18446744073709551616) :
    sub64 a b ≠ 0 := by
  rw [sub64_eq_sub (le_of_lt h1) h2]
  omega

theorem alookup_eq_of_mem {α β : Type} [DecidableEq α] {l : List (α × β)} {k : α} {v : β}
    (hnd : keysNodup l) (hm : (k, v) ∈ l) : alookup k l = some v := by
  induction l with
  | nil => cases hm
  | cons p rest ih =>
    rcases List.mem_cons.mp hm with h | h
    · subst h
      simp [alookup]
    · have hk : k ∈ rest.map Prod.fst := List.mem_map.mpr ⟨(k, v), h, rfl⟩
      have hne : p.1 ≠ k := by
        intro he
        have := (List.nodup_cons.mp hnd).1
        exact this (he ▸ hk)
      obtain ⟨a, b⟩ := p
      simp only [alookup, if_neg hne]
      exact ih (List.nodup_cons.mp hnd).2 h

theorem alookup_map_pair {α β γ : Type} [DecidableEq α] (g : α → β → γ)
    {l : List (α × β)} {k : α} {v : β} (hnd : keysNodup l) (hm : (k, v) ∈ l) :
    alookup k (l.map (fun p => (p.1, g p.1 p.2))) = some (g k v) := by
  induction l with
  | nil => cases hm
  | cons p rest ih =>
    rcases List.mem_cons.mp hm with h | h
    · subst h
      simp [alookup]
    · have hk : k ∈ rest.map Prod.fst := List.mem_map.mpr ⟨(k, v), h, rfl⟩
      have hne : p.1 ≠ k := by
        intro he
        exact (List.nodup_cons.mp hnd).1 (he ▸ hk)
      obtain ⟨a, b⟩ := p
      simp only [List.map_cons, alookup, if_neg hne]
      exact ih (List.nodup_cons.mp hnd).2 h

theorem alookup_aupdate_self {α β : Type} [DecidableEq α] (k : α) (v : β) (l : List (α × β)) :
    alookup k (aupdate k v l) = (alookup k l).map (fun _ => v) := by
  induction l with
  | nil => rfl
  | cons p rest ih =>
    obtain ⟨a, b⟩ := p
    by_cases h : a = k
    · subst h
      simp [aupdate, alookup]
    · simp [aupdate, alookup, h, ih]

theorem alookup_aupdate_ne {α β : Type} [DecidableEq α] {k k' : α} (v : β) (l : List (α × β))
    (h : k' ≠ k) : alookup k' (aupdate k v l) = alookup k' l := by
  induction l with
  | nil => rfl
  | cons p rest ih =>
    obtain ⟨a, b⟩ := p
    by_cases ha : a = k
    · subst ha
      have hne : ¬ a = k' := fun he => h he.symm
      simp [aupdate, alookup, hne]
    · by_cases hk : a = k'
      · subst hk
        simp [aupdate, alookup, ha]
      · simp [aupdate, alookup, ha, hk, ih]

theorem alookup_aset_self {α β : Type} [DecidableEq α] (k : α) (v : β) (l : List (α × β)) :
    alookup k (aset k v l) = some v := by
  induction l with
  | nil => simp [aset, alookup]
  | cons p rest ih =>
    obtain ⟨a, b⟩ := p
    by_cases h : a = k
    · subst h
      simp [aset, alookup]
    · simp [aset, alookup, h, ih]

theorem alookup_aset_ne {α β : Type} [DecidableEq α] {k k' : α} (v : β) (l : List (α × β))
    (h : k' ≠ k) : alookup k' (aset k v l) = alookup k' l := by
  induction l with
  | nil =>
    have hne : ¬ k = k' := fun he => h he.symm
    simp [aset, alookup, hne]
  | cons p rest ih =>
    obtain ⟨a, b⟩ := p
    by_cases ha : a = k
    · subst ha
      have hne : ¬ a = k' := fun he => h he.symm
      simp [aset, alookup, hne]
    · by_cases hk : a = k'
      · subst hk
        simp [aset, alookup, ha]
      · simp [aset, alookup, ha, hk, ih]

theorem alookup_clearRaw_self (sd : Nat) (l : List (Nat × RawEntry)) :
    alookup sd (clearRaw sd l) =
      (alookup sd l).map (fun e => RawEntry.mk U64MAX e.raw_timestamp) := by
  induction l with
  | nil => rfl
  | cons p rest ih =>
    obtain ⟨a, e⟩ := p
    by_cases h : a = sd
    · subst h
      simp [clearRaw, alookup]
    · simp [clearRaw, alookup, h, ih]

theorem alookup_clearRaw_ne {sd sd' : Nat} (l : List (Nat × RawEntry)) (h : sd' ≠ sd) :
    alookup sd' (clearRaw sd l) = alookup sd' l := by
  induction l with
  | nil => rfl
  | cons p rest ih =>
    obtain ⟨a, e⟩ := p
    by_cases ha : a = sd
    · subst ha
      have hne : ¬ a = sd' := fun he => h he.symm
      simp [clearRaw, alookup, hne]
    · by_cases hk : a = sd'
      · subst hk
        simp [clearRaw, alookup, ha]
      · simp [clearRaw, alookup, ha, hk, ih]

theorem clearRaw_isSome (sd k : Nat) (l : List (Nat × RawEntry)) :
    (alookup k (clearRaw sd l)).isSome = (alookup k l).isSome := by
  by_cases h : k = sd
  · subst h
    rw [alookup_clearRaw_self]
    cases alookup k l <;> rfl
  · rw [alookup_clearRaw_ne l h]

theorem clearRaw_isEmpty (sd : Nat) (l : List (Nat × RawEntry)) :
    (clearRaw sd l).isEmpty = l.isEmpty := by
  cases l with
  | nil => rfl
  | cons p rest =>
    obtain ⟨a, e⟩ := p
    by_cases h : a = sd <;> simp [clearRaw, h]

/-- `detectSubLoop` touches only the sub-device raw values of the previous
baseline: all other fields, the key set and emptiness of its sub-device map
are preserved. -/
theorem dsl_preserves (curs : List (Nat × RawEntry)) (preMD : HMD) :
    (detectSubLoop preMD curs).hasRawDataOnDevice = preMD.hasRawDataOnDevice ∧
    (detectSubLoop preMD curs).rawData = preMD.rawData ∧
    (detectSubLoop preMD curs).rawTimestamp = preMD.rawTimestamp ∧
    (detectSubLoop preMD curs).subRaw.isEmpty = preMD.subRaw.isEmpty ∧
    (∀ k, (alookup k (detectSubLoop preMD curs).subRaw).isSome =
          (alookup k preMD.subRaw).isSome) := by
  induction curs generalizing preMD with
  | nil => exact ⟨rfl, rfl, rfl, rfl, fun _ => rfl⟩
  | cons p rest ih =>
    obtain ⟨sd, e⟩ := p
    simp only [detectSubLoop]
    split
    · split
      · rcases ih (preMD.clearSubdeviceRawdata sd) with ⟨h1, h2, h3, h4, h5⟩
        refine ⟨h1, h2, h3, ?_, ?_⟩
        · rw [h4]
          exact clearRaw_isEmpty sd preMD.subRaw
        · intro k
          rw [h5 k]
          exact clearRaw_isSome sd k preMD.subRaw
      · exact ih preMD
    · exact ⟨rfl, rfl, rfl, rfl, fun _ => rfl⟩

/-- A sub-device key that does not occur in the walked list keeps its
baseline entry across `detectSubLoop`. -/
theorem dsl_frame (curs : List (Nat × RawEntry)) (preMD : HMD) (sd : Nat)
    (h : sd ∉ curs.map Prod.fst) :
    alookup sd (detectSubLoop preMD curs).subRaw = alookup sd preMD.subRaw := by
  induction curs generalizing preMD with
  | nil => rfl
  | cons p rest ih =>
    obtain ⟨sd0, e0⟩ := p
    have hne : sd ≠ sd0 := by
      intro he
      exact h (by simp [he])
    have hrest : sd ∉ rest.map Prod.fst := by
      intro hr
      exact h (by simp [hr])
    simp only [detectSubLoop]
    split
    · split
      · rw [ih _ hrest]
        exact alookup_clearRaw_ne preMD.subRaw hne
      · exact ih _ hrest
    · rfl

theorem clear_subRaw (md : HMD) (sd : Nat) :
    (md.clearSubdeviceRawdata sd).subRaw = clearRaw sd md.subRaw := rfl

/-- If the walked sub-device keys are all covered by the previous baseline
and sub-device `sd` dropped (both values real, current below previous),
`detectSubLoop` replaces exactly its baseline raw value by the sentinel. -/
theorem dsl_clear (curs : List (Nat × RawEntry)) : ∀ (preMD : HMD) (sd : Nat) (e pe : RawEntry),
    (∀ p ∈ curs, (alookup p.1 preMD.subRaw).isSome = true) →
    keysNodup curs → (sd, e) ∈ curs →
    alookup sd preMD.subRaw = some pe →
    pe.raw_data ≠ U64MAX → e.raw_data ≠ U64MAX → e.raw_data < pe.raw_data →
    alookup sd (detectSubLoop preMD curs).subRaw =
      some (RawEntry.mk U64MAX pe.raw_timestamp) := by
  induction curs with
  | nil =>
    intro _ _ _ _ _ _ hm
    cases hm
  | cons p rest ih =>
    obtain ⟨sd0, e0⟩ := p
    intro preMD sd e pe hcov hnd hm hpe h1 h2 h3
    have hs0 : (alookup sd0 preMD.subRaw).isSome = true :=
      hcov (sd0, e0) (List.mem_cons_self _ _)
    simp only [keysNodup, List.map_cons] at hnd
    rcases List.mem_cons.mp hm with hh | ht
    · injection hh with hsd he
      subst hsd
      subst he
      have hg : preMD.getSubdeviceRawData sd = pe.raw_data := by
        simp [HMD.getSubdeviceRawData, hpe]
      have hcond : preMD.getSubdeviceRawData sd ≠ U64MAX ∧ e.raw_data ≠ U64MAX ∧
          e.raw_data < preMD.getSubdeviceRawData sd := by
        rw [hg]
        exact ⟨h1, h2, h3⟩
      have hrest : sd ∉ rest.map Prod.fst := (List.nodup_cons.mp hnd).1
      simp only [detectSubLoop, if_pos hs0, if_pos hcond]
      rw [dsl_frame rest _ sd hrest, clear_subRaw, alookup_clearRaw_self, hpe]
      rfl
    · have hsd0 : sd0 ∉ rest.map Prod.fst := (List.nodup_cons.mp hnd).1
      have hne : sd ≠ sd0 := by
        intro he
        exact hsd0 (he ▸ List.mem_map.mpr ⟨(sd, e), ht, rfl⟩)
      simp only [detectSubLoop, if_pos hs0]
      have hnd' : keysNodup rest := (List.nodup_cons.mp hnd).2
      split
      · refine ih (preMD.clearSubdeviceRawdata sd0) sd e pe ?_ hnd' ht ?_ h1 h2 h3
        · intro q hq
          rw [clear_subRaw, clearRaw_isSome]
          exact hcov q (List.mem_cons_of_mem _ hq)
        · rw [clear_subRaw, alookup_clearRaw_ne _ hne]
          exact hpe
      · refine ih preMD sd e pe ?_ hnd' ht hpe h1 h2 h3
        intro q hq
        exact hcov q (List.mem_cons_of_mem _ hq)

/-- Under the same coverage conditions, a sub-device that did not drop keeps
its baseline entry unchanged across `detectSubLoop`. -/
theorem dsl_keep (curs : List (Nat × RawEntry)) : ∀ (preMD : HMD) (sd' : Nat) (e' pe' : RawEntry),
    (∀ p ∈ curs, (alookup p.1 preMD.subRaw).isSome = true) →
    keysNodup curs → (sd', e') ∈ curs →
    alookup sd' preMD.subRaw = some pe' →
    ¬(pe'.raw_data ≠ U64MAX ∧ e'.raw_data ≠ U64MAX ∧ e'.raw_data < pe'.raw_data) →
    alookup sd' (detectSubLoop preMD curs).subRaw = some pe' := by
  induction curs with
  | nil =>
    intro _ _ _ _ _ _ hm
    cases hm
  | cons p rest ih =>
    obtain ⟨sd0, e0⟩ := p
    intro preMD sd' e' pe' hcov hnd hm hpe hnc
    have hs0 : (alookup sd0 preMD.subRaw).isSome = true :=
      hcov (sd0, e0) (List.mem_cons_self _ _)
    simp only [keysNodup, List.map_cons] at hnd
    rcases List.mem_cons.mp hm with hh | ht
    · injection hh with hsd he
      subst hsd
      subst he
      have hg : preMD.getSubdeviceRawData sd' = pe'.raw_data := by
        simp [HMD.getSubdeviceRawData, hpe]
      have hcond : ¬(preMD.getSubdeviceRawData sd' ≠ U64MAX ∧ e'.raw_data ≠ U64MAX ∧
          e'.raw_data < preMD.getSubdeviceRawData sd') := by
        rw [hg]
        exact hnc
      have hrest : sd' ∉ rest.map Prod.fst := (List.nodup_cons.mp hnd).1
      simp only [detectSubLoop, if_pos hs0, if_neg hcond]
      rw [dsl_frame rest _ sd' hrest]
      exact hpe
    · have hsd0 : sd0 ∉ rest.map Prod.fst := (List.nodup_cons.mp hnd).1
      have hne : sd' ≠ sd0 := by
        intro he
        exact hsd0 (he ▸ List.mem_map.mpr ⟨(sd', e'), ht, rfl⟩)
      simp only [detectSubLoop, if_pos hs0]
      have hnd' : keysNodup rest := (List.nodup_cons.mp hnd).2
      split
      · refine ih (preMD.clearSubdeviceRawdata sd0) sd' e' pe' ?_ hnd' ht ?_ hnc
        · intro q hq
          rw [clear_subRaw, clearRaw_isSome]
          exact hcov q (List.mem_cons_of_mem _ hq)
        · rw [clear_subRaw, alookup_clearRaw_ne _ hne]
          exact hpe
      · refine ih preMD sd' e' pe' ?_ hnd' ht hpe hnc
        intro q hq
        exact hcov q (List.mem_cons_of_mem _ hq)

theorem css_subCurrent_ne (preMD md : HMD) (sd0 : Nat) (e0 : RawEntry) {sd : Nat}
    (h : sd ≠ sd0) :
    alookup sd (calcSubStep preMD md sd0 e0).subCurrent = alookup sd md.subCurrent := by
  simp only [calcSubStep]
  split
  · split
    · exact alookup_aset_ne _ _ h
    · rfl
  · rfl

/-- `calcSubStep` touches only the per-sub-device current values. -/
theorem css_preserves (preMD md : HMD) (sd0 : Nat) (e0 : RawEntry) :
    (calcSubStep preMD md sd0 e0).current = md.current ∧
    (calcSubStep preMD md sd0 e0).subRaw = md.subRaw ∧
    (calcSubStep preMD md sd0 e0).rawData = md.rawData ∧
    (calcSubStep preMD md sd0 e0).rawTimestamp = md.rawTimestamp ∧
    (calcSubStep preMD md sd0 e0).hasRawDataOnDevice = md.hasRawDataOnDevice := by
  simp only [calcSubStep]
  split
  · split
    · exact ⟨rfl, rfl, rfl, rfl, rfl⟩
    · exact ⟨rfl, rfl, rfl, rfl, rfl⟩
  · exact ⟨rfl, rfl, rfl, rfl, rfl⟩

/-- `calcSubLoop` touches only the per-sub-device current values. -/
theorem csl_preserves (preMD : HMD) (curs : List (Nat × RawEntry)) : ∀ (md : HMD),
    (calcSubLoop preMD md curs).current = md.current ∧
    (calcSubLoop preMD md curs).subRaw = md.subRaw ∧
    (calcSubLoop preMD md curs).rawData = md.rawData ∧
    (calcSubLoop preMD md curs).rawTimestamp = md.rawTimestamp ∧
    (calcSubLoop preMD md curs).hasRawDataOnDevice = md.hasRawDataOnDevice := by
  induction curs with
  | nil => exact fun md => ⟨rfl, rfl, rfl, rfl, rfl⟩
  | cons p rest ih =>
    obtain ⟨sd0, e0⟩ := p
    intro md
    simp only [calcSubLoop]
    split
    · rcases ih (calcSubStep preMD md sd0 e0) with ⟨h1, h2, h3, h4, h5⟩
      rcases css_preserves preMD md sd0 e0 with ⟨g1, g2, g3, g4, g5⟩
      exact ⟨h1.trans g1, h2.trans g2, h3.trans g3, h4.trans g4, h5.trans g5⟩
    · exact ⟨rfl, rfl, rfl, rfl, rfl⟩

/-- A sub-device key not walked by `calcSubLoop` keeps its derived current
value. -/
theorem csl_frame (preMD : HMD) (curs : List (Nat × RawEntry)) : ∀ (md : HMD) (sd : Nat),
    sd ∉ curs.map Prod.fst →
    alookup sd (calcSubLoop preMD md curs).subCurrent = alookup sd md.subCurrent := by
  induction curs with
  | nil => exact fun _ _ _ => rfl
  | cons p rest ih =>
    obtain ⟨sd0, e0⟩ := p
    intro md sd h
    have hne : sd ≠ sd0 := by
      intro he
      exact h (by simp [he])
    have hrest : sd ∉ rest.map Prod.fst := by
      intro hr
      exact h (by simp [hr])
    simp only [calcSubLoop]
    split
    · rw [ih _ _ hrest]
      exact css_subCurrent_ne preMD md sd0 e0 hne
    · rfl

/-- If the walked sub-device keys are covered by the previous baseline and
the entity's pair passes the sentinel and interval guards, `calcSubLoop`
stores exactly the quotient of the wrap-around differences as that
entity's derived value. -/
theorem csl_set (preMD : HMD) (curs : List (Nat × RawEntry)) :
    ∀ (md : HMD) (sd : Nat) (e pe : RawEntry),
    (∀ p ∈ curs, (alookup p.1 preMD.subRaw).isSome = true) →
    keysNodup curs → (sd, e) ∈ curs →
    alookup sd preMD.subRaw = some pe →
    pe.raw_data ≠ U64MAX → e.raw_data ≠ U64MAX →
    sub64 e.raw_timestamp pe.raw_timestamp ≠ 0 →
    alookup sd (calcSubLoop preMD md curs).subCurrent =
      some (sub64 e.raw_data pe.raw_data / sub64 e.raw_timestamp pe.raw_timestamp) := by
  induction curs with
  | nil =>
    intro _ _ _ _ _ _ hm
    cases hm
  | cons p rest ih =>
    obtain ⟨sd0, e0⟩ := p
    intro md sd e pe hcov hnd hm hpe h1 h2 h3
    have hs0 : (alookup sd0 preMD.subRaw).isSome = true :=
      hcov (sd0, e0) (List.mem_cons_self _ _)
    simp only [keysNodup, List.map_cons] at hnd
    simp only [calcSubLoop, if_pos hs0]
    rcases List.mem_cons.mp hm with hh | ht
    · injection hh with hsd he
      subst hsd
      subst he
      have hg : preMD.getSubdeviceRawData sd = pe.raw_data := by
        simp [HMD.getSubdeviceRawData, hpe]
      have hgt : preMD.getSubdeviceDataRawTimestamp sd = pe.raw_timestamp := by
        simp [HMD.getSubdeviceDataRawTimestamp, hpe]
      have hrest : sd ∉ rest.map Prod.fst := (List.nodup_cons.mp hnd).1
      rw [csl_frame preMD rest _ sd hrest]
      simp only [calcSubStep, hg, hgt, if_pos (And.intro h1 h2), if_pos h3]
      exact alookup_aset_self _ _ _
    · exact ih (calcSubStep preMD md sd0 e0) sd e pe
        (fun q hq => hcov q (List.mem_cons_of_mem _ hq))
        (List.nodup_cons.mp hnd).2 ht hpe h1 h2 h3

/-- Running the rate computation after overflow detection over the same
sub-device list never updates the derived value of an entity whose raw
counter dropped: the cleared baseline (or the stopped walk) suppresses the
rate. -/
theorem csl_combined (curs : List (Nat × RawEntry)) : ∀ (preMD md : HMD) (sd : Nat) (e pe : RawEntry),
    keysNodup curs → (sd, e) ∈ curs →
    alookup sd preMD.subRaw = some pe →
    pe.raw_data ≠ U64MAX → e.raw_data ≠ U64MAX → e.raw_data < pe.raw_data →
    alookup sd (calcSubLoop (detectSubLoop preMD curs) md curs).subCurrent =
      alookup sd md.subCurrent := by
  induction curs with
  | nil =>
    intro _ _ _ _ _ _ hm
    cases hm
  | cons p rest ih =>
    obtain ⟨sd0, e0⟩ := p
    intro preMD md sd e pe hnd hm hpe h1 h2 h3
    simp only [keysNodup, List.map_cons] at hnd
    by_cases hs0 : (alookup sd0 preMD.subRaw).isSome = true
    · rcases List.mem_cons.mp hm with hh | ht
      · injection hh with hsd he
        subst hsd
        subst he
        have hg : preMD.getSubdeviceRawData sd = pe.raw_data := by
          simp [HMD.getSubdeviceRawData, hpe]
        have hcond : preMD.getSubdeviceRawData sd ≠ U64MAX ∧ e.raw_data ≠ U64MAX ∧
            e.raw_data < preMD.getSubdeviceRawData sd := by
          rw [hg]
          exact ⟨h1, h2, h3⟩
        have hrest : sd ∉ rest.map Prod.fst := (List.nodup_cons.mp hnd).1
        have hdet : detectSubLoop preMD ((sd, e) :: rest) =
            detectSubLoop (preMD.clearSubdeviceRawdata sd) rest := by
          simp only [detectSubLoop, if_pos hs0, if_pos hcond]
        rw [hdet]
        have hDlook : alookup sd (detectSubLoop (preMD.clearSubdeviceRawdata sd) rest).subRaw =
            some (RawEntry.mk U64MAX pe.raw_timestamp) := by
          rw [dsl_frame rest _ sd hrest, clear_subRaw, alookup_clearRaw_self, hpe]
          rfl
        have hDsome : (alookup sd (detectSubLoop (preMD.clearSubdeviceRawdata sd) rest).subRaw).isSome = true := by
          rw [hDlook]
          rfl
        have hDraw : (detectSubLoop (preMD.clearSubdeviceRawdata sd) rest).getSubdeviceRawData sd = U64MAX := by
          simp [HMD.getSubdeviceRawData, hDlook]
        have hstep : calcSubStep (detectSubLoop (preMD.clearSubdeviceRawdata sd) rest) md sd e = md := by
          simp only [calcSubStep]
          rw [if_neg]
          intro hc
          exact hc.1 hDraw
        simp only [calcSubLoop, if_pos hDsome, hstep]
        exact csl_frame _ rest md sd hrest
      · have hsd0 : sd0 ∉ rest.map Prod.fst := (List.nodup_cons.mp hnd).1
        have hne : sd ≠ sd0 := fun he => hsd0 (he ▸ List.mem_map.mpr ⟨(sd, e), ht, rfl⟩)
        have hdet : detectSubLoop preMD ((sd0, e0) :: rest) =
            detectSubLoop (if preMD.getSubdeviceRawData sd0 ≠ U64MAX ∧ e0.raw_data ≠ U64MAX ∧
                e0.raw_data < preMD.getSubdeviceRawData sd0
              then preMD.clearSubdeviceRawdata sd0 else preMD) rest := by
          simp only [detectSubLoop, if_pos hs0]
        rw [hdet]
        by_cases hc : preMD.getSubdeviceRawData sd0 ≠ U64MAX ∧ e0.raw_data ≠ U64MAX ∧
            e0.raw_data < preMD.getSubdeviceRawData sd0
        · rw [if_pos hc]
          have hs0' : (alookup sd0 (detectSubLoop (preMD.clearSubdeviceRawdata sd0) rest).subRaw).isSome = true := by
            rw [(dsl_preserves rest _).2.2.2.2 sd0, clear_subRaw, clearRaw_isSome]
            exact hs0
          have hpe1 : alookup sd (preMD.clearSubdeviceRawdata sd0).subRaw = some pe := by
            rw [clear_subRaw, alookup_clearRaw_ne _ hne]
            exact hpe
          simp only [calcSubLoop, if_pos hs0']
          rw [ih (preMD.clearSubdeviceRawdata sd0) _ sd e pe (List.nodup_cons.mp hnd).2 ht hpe1 h1 h2 h3]
          exact css_subCurrent_ne _ md sd0 e0 hne
        · rw [if_neg hc]
          have hs0' : (alookup sd0 (detectSubLoop preMD rest).subRaw).isSome = true := by
            rw [(dsl_preserves rest preMD).2.2.2.2 sd0]
            exact hs0
          simp only [calcSubLoop, if_pos hs0']
          rw [ih preMD _ sd e pe (List.nodup_cons.mp hnd).2 ht hpe h1 h2 h3]
          exact css_subCurrent_ne _ md sd0 e0 hne
    · have hdet : detectSubLoop preMD ((sd0, e0) :: rest) = preMD := by
        simp only [detectSubLoop, if_neg hs0]
      rw [hdet]
      simp only [calcSubLoop, if_neg hs0]

/-- A device absent from the current sample keeps its baseline entry across
the device loop of overflow detection (when no device-level overflow
discarded the snapshot). -/
theorem dl_frame (cur : SharedData) : ∀ (pre pre2 : SharedData) (devId : String),
    devId ∉ cur.map Prod.fst → detectLoop pre cur = some pre2 →
    alookup devId pre2 = alookup devId pre := by
  induction cur with
  | nil =>
    intro pre pre2 devId _ hdl
    injection hdl with h
    rw [← h]
  | cons p rest ih =>
    obtain ⟨d0, md0⟩ := p
    intro pre pre2 devId h hdl
    have hne : devId ≠ d0 := by
      intro he
      exact h (by simp [he])
    have hrest : devId ∉ rest.map Prod.fst := by
      intro hr
      exact h (by simp [hr])
    cases h0 : alookup d0 pre with
    | none =>
      simp only [detectLoop, h0] at hdl
      exact ih pre pre2 devId hrest hdl
    | some preMD0 =>
      simp only [detectLoop, h0] at hdl
      split at hdl
      · exact absurd hdl (by simp)
      · split at hdl
        · rw [ih _ pre2 devId hrest hdl]
          exact alookup_aupdate_ne _ pre hne
        · exact ih pre pre2 devId hrest hdl

/-- A device-level counter drop (both values real) makes
`counterOverflowDetection` discard the whole previous snapshot. -/
theorem dl_none (cur : SharedData) : ∀ (pre : SharedData) (devId : String) (preMD md : HMD),
    keysNodup cur → (devId, md) ∈ cur → alookup devId pre = some preMD →
    md.hasRawDataOnDevice = true → preMD.hasRawDataOnDevice = true →
    preMD.rawData ≠ U64MAX → md.rawData ≠ U64MAX → md.rawData < preMD.rawData →
    detectLoop pre cur = none := by
  induction cur with
  | nil =>
    intro _ _ _ _ _ hm
    cases hm
  | cons p rest ih =>
    obtain ⟨d0, md0⟩ := p
    intro pre devId preMD md hnd hm hpre hb1 hb2 hn1 hn2 hlt
    simp only [keysNodup, List.map_cons] at hnd
    rcases List.mem_cons.mp hm with hh | ht
    · injection hh with hd hm0
      subst hd
      subst hm0
      simp only [detectLoop, hpre]
      rw [if_pos ⟨hb1, hb2, hn1, hn2, hlt⟩]
    · have hd0 : d0 ∉ rest.map Prod.fst := (List.nodup_cons.mp hnd).1
      have hne : devId ≠ d0 := fun he => hd0 (he ▸ List.mem_map.mpr ⟨(devId, md), ht, rfl⟩)
      cases h0 : alookup d0 pre with
      | none =>
        simp only [detectLoop, h0]
        exact ih pre devId preMD md (List.nodup_cons.mp hnd).2 ht hpre hb1 hb2 hn1 hn2 hlt
      | some preMD0 =>
        simp only [detectLoop, h0]
        split
        · rfl
        · split
          · refine ih _ devId preMD md (List.nodup_cons.mp hnd).2 ht ?_ hb1 hb2 hn1 hn2 hlt
            rw [alookup_aupdate_ne _ pre hne]
            exact hpre
          · exact ih pre devId preMD md (List.nodup_cons.mp hnd).2 ht hpre hb1 hb2 hn1 hn2 hlt

/-- When the device loop of overflow detection survives (no device-level
overflow), the surviving baseline of a device present in the current sample
is exactly its old baseline with the sub-device detection walk applied. -/
theorem dl_lookup_some (cur : SharedData) : ∀ (pre pre2 : SharedData) (devId : String) (preMD md : HMD),
    keysNodup cur → (devId, md) ∈ cur → alookup devId pre = some preMD →
    detectLoop pre cur = some pre2 →
    alookup devId pre2 =
      some (if md.hasSubdeviceRawData ∧ preMD.hasSubdeviceRawData
            then detectSubLoop preMD md.subRaw else preMD) := by
  induction cur with
  | nil =>
    intro _ _ _ _ _ _ hm
    cases hm
  | cons p rest ih =>
    obtain ⟨d0, md0⟩ := p
    intro pre pre2 devId preMD md hnd hm hpre hdl
    simp only [keysNodup, List.map_cons] at hnd
    rcases List.mem_cons.mp hm with hh | ht
    · injection hh with hd hm0
      subst hd
      subst hm0
      simp only [detectLoop, hpre] at hdl
      split at hdl
      · exact absurd hdl (by simp)
      · have hrest : devId ∉ rest.map Prod.fst := (List.nodup_cons.mp hnd).1
        by_cases hg : md.hasSubdeviceRawData ∧ preMD.hasSubdeviceRawData
        · rw [if_pos hg] at hdl
          rw [dl_frame rest _ pre2 devId hrest hdl, alookup_aupdate_self, hpre, if_pos hg]
          rfl
        · rw [if_neg hg] at hdl
          rw [dl_frame rest _ pre2 devId hrest hdl, if_neg hg]
          exact hpre
    · have hd0 : d0 ∉ rest.map Prod.fst := (List.nodup_cons.mp hnd).1
      have hne : devId ≠ d0 := fun he => hd0 (he ▸ List.mem_map.mpr ⟨(devId, md), ht, rfl⟩)
      cases h0 : alookup d0 pre with
      | none =>
        simp only [detectLoop, h0] at hdl
        exact ih pre pre2 devId preMD md (List.nodup_cons.mp hnd).2 ht hpre hdl
      | some preMD0 =>
        simp only [detectLoop, h0] at hdl
        split at hdl
        · exact absurd hdl (by simp)
        · split at hdl
          · refine ih _ pre2 devId preMD md (List.nodup_cons.mp hnd).2 ht ?_ hdl
            rw [alookup_aupdate_ne _ pre hne]
            exact hpre
          · exact ih pre pre2 devId preMD md (List.nodup_cons.mp hnd).2 ht hpre hdl

/-- The processed value `calculateData` stores for a device present in the
current sample. -/
theorem calc_lookup {cur : SharedData} {devId : String} {md : HMD} (pre : SharedData)
    (hnd : keysNodup cur) (hm : (devId, md) ∈ cur) :
    alookup devId (calculateData (some pre) cur) =
      some (match alookup devId pre with
            | none => md
            | some preMD => calcDev1 preMD md) := by
  have h := alookup_map_pair
    (fun (k : String) (v : HMD) =>
      match alookup k pre with
      | none => v
      | some q => calcDev1 q v) hnd hm
  exact h

theorem isEmpty_false_of_alookup {α β : Type} [DecidableEq α] {l : List (α × β)} {k : α} {v : β}
    (h : alookup k l = some v) : l.isEmpty = false := by
  cases l with
  | nil => exact absurd h (by simp [alookup])
  | cons p rest => rfl

theorem isEmpty_false_of_mem {α : Type} {l : List α} {x : α} (h : x ∈ l) :
    l.isEmpty = false := by
  cases l with
  | nil => cases h
  | cons p rest => rfl

theorem hasSub_true_of_alookup {md : HMD} {k : Nat} {v : RawEntry}
    (h : alookup k md.subRaw = some v) : md.hasSubdeviceRawData = true := by
  simp [HMD.hasSubdeviceRawData, isEmpty_false_of_alookup h]

theorem hasSub_true_of_mem {md : HMD} {x : Nat × RawEntry} (h : x ∈ md.subRaw) :
    md.hasSubdeviceRawData = true := by
  simp [HMD.hasSubdeviceRawData, isEmpty_false_of_mem h]

/-- `calcDevicePart` touches only the device-level current value. -/
theorem cdp_preserves (preMD md : HMD) :
    (calcDevicePart preMD md).subRaw = md.subRaw ∧
    (calcDevicePart preMD md).subCurrent = md.subCurrent := by
  simp only [calcDevicePart]
  split
  · split
    · split
      · exact ⟨rfl, rfl⟩
      · exact ⟨rfl, rfl⟩
    · exact ⟨rfl, rfl⟩
  · exact ⟨rfl, rfl⟩

/-- When every guard of the device-level rate computation passes, the
derived value becomes the quotient of the wrap-around differences. -/
theorem cdp_set (preMD md : HMD) (hb1 : md.hasRawDataOnDevice = true)
    (hb2 : preMD.hasRawDataOnDevice = true) (hn1 : preMD.rawData ≠ U64MAX)
    (hn2 : md.rawData ≠ U64MAX) (hdt : sub64 md.rawTimestamp preMD.rawTimestamp ≠ 0) :
    calcDevicePart preMD md =
      md.setCurrent (sub64 md.rawData preMD.rawData / sub64 md.rawTimestamp preMD.rawTimestamp) := by
  simp only [calcDevicePart]
  rw [if_pos ⟨hb1, hb2⟩, if_pos ⟨hn1, hn2⟩, if_pos hdt]

/-- When both sides carry sub-device raw data, the per-device rate
computation is the sub-device loop run after the device-level part. -/
theorem calcDev1_eq (preMD md : HMD) (hsub : md.hasSubdeviceRawData = true)
    (hpresub : preMD.hasSubdeviceRawData = true) :
    calcDev1 preMD md = calcSubLoop preMD (calcDevicePart preMD md) md.subRaw := by
  have h1 : (calcDevicePart preMD md).subRaw = md.subRaw := (cdp_preserves preMD md).1
  have h2 : (calcDevicePart preMD md).hasSubdeviceRawData = true := by
    simp only [HMD.hasSubdeviceRawData] at hsub ⊢
    rw [h1]
    exact hsub
  simp only [calcDev1]
  rw [if_pos ⟨h2, hpresub⟩, h1]

theorem calcDev1_current (preMD md : HMD) :
    (calcDev1 preMD md).current = (calcDevicePart preMD md).current := by
  simp only [calcDev1]
  split
  · exact (csl_preserves preMD _ _).1
  · rfl

/-- One device-level sample on device `"0"` with no sub-device data, as in
the spec's `[100, 40]` counter example. -/
def devSample (raw ts cv : Nat) : SharedData := [("0", HMD.mk true raw ts cv [] [])]

/-! ## Claim theorems for the rate handler -/

/-- C9: when the current raw entry's timestamp equals the previous raw
entry's timestamp for an entity, the rate computation performs no update for
that entity: the device-level step returns the sample literally unchanged,
the per-sub-device step returns the sample literally unchanged, and through
`calculateData` the device-level derived value and every other field of the
sample (except sub-device currents written by other entities) are exactly
the incoming ones. -/
theorem claim_C9 :
    (∀ (preMD md : HMD), md.rawTimestamp = preMD.rawTimestamp →
      calcDevicePart preMD md = md) ∧
    (∀ (preMD md : HMD) (sd : Nat) (e : RawEntry),
      e.raw_timestamp = preMD.getSubdeviceDataRawTimestamp sd →
      calcSubStep preMD md sd e = md) ∧
    (∀ (pre cur : SharedData) (devId : String) (preMD md : HMD),
      keysNodup cur → (devId, md) ∈ cur → alookup devId pre = some preMD →
      md.rawTimestamp = preMD.rawTimestamp →
      ∃ mdOut, alookup devId (calculateData (some pre) cur) = some mdOut ∧
        mdOut.current = md.current ∧ mdOut.rawData = md.rawData ∧
        mdOut.rawTimestamp = md.rawTimestamp ∧ mdOut.subRaw = md.subRaw ∧
        mdOut.hasRawDataOnDevice = md.hasRawDataOnDevice) := by
  have hA : ∀ (preMD md : HMD), md.rawTimestamp = preMD.rawTimestamp →
      calcDevicePart preMD md = md := by
    intro preMD md h
    have h0 : sub64 md.rawTimestamp preMD.rawTimestamp = 0 := by
      rw [h, sub64_self]
    simp [calcDevicePart, h0]
  refine ⟨hA, ?_, ?_⟩
  · intro preMD md sd e h
    have h0 : sub64 e.raw_timestamp (preMD.getSubdeviceDataRawTimestamp sd) = 0 := by
      rw [h, sub64_self]
    simp [calcSubStep, h0]
  · intro pre cur devId preMD md hnd hm hpre hts
    have hdp : calcDevicePart preMD md = md := hA preMD md hts
    have h5 : (calcDev1 preMD md).current = md.current ∧
        (calcDev1 preMD md).rawData = md.rawData ∧
        (calcDev1 preMD md).rawTimestamp = md.rawTimestamp ∧
        (calcDev1 preMD md).subRaw = md.subRaw ∧
        (calcDev1 preMD md).hasRawDataOnDevice = md.hasRawDataOnDevice := by
      simp only [calcDev1, hdp]
      split
      · exact ⟨(csl_preserves _ _ _).1, (csl_preserves _ _ _).2.2.1,
          (csl_preserves _ _ _).2.2.2.1, (csl_preserves _ _ _).2.1,
          (csl_preserves _ _ _).2.2.2.2⟩
      · exact ⟨rfl, rfl, rfl, rfl, rfl⟩
    refine ⟨calcDev1 preMD md, ?_, h5.1, h5.2.1, h5.2.2.1, h5.2.2.2.1, h5.2.2.2.2⟩
    rw [calc_lookup pre hnd hm, hpre]

/-- C9 witness: a concrete zero-length interval (device level and
sub-device level) leaves the concrete sample untouched. -/
theorem claim_C9_witness :
    calcDevicePart (HMD.mk true 10 5 0 [] []) (HMD.mk true 40 5 3 [] []) =
      HMD.mk true 40 5 3 [] [] ∧
    calcSubStep (HMD.mk false 0 0 0 [(2, RawEntry.mk 10 5)] [])
        (HMD.mk false 0 0 0 [(2, RawEntry.mk 40 5)] [(2, 9)]) 2 (RawEntry.mk 40 5) =
      HMD.mk false 0 0 0 [(2, RawEntry.mk 40 5)] [(2, 9)] ∧
    (∃ mdOut, alookup "0" (calculateData (some [("0", HMD.mk true 10 5 0 [] [])])
          [("0", HMD.mk true 40 5 3 [] [])]) = some mdOut ∧
        mdOut.current = (HMD.mk true 40 5 3 [] []).current ∧
        mdOut.rawData = (HMD.mk true 40 5 3 [] []).rawData ∧
        mdOut.rawTimestamp = (HMD.mk true 40 5 3 [] []).rawTimestamp ∧
        mdOut.subRaw = (HMD.mk true 40 5 3 [] []).subRaw ∧
        mdOut.hasRawDataOnDevice = (HMD.mk true 40 5 3 [] []).hasRawDataOnDevice) :=
  ⟨claim_C9.1 (HMD.mk true 10 5 0 [] []) (HMD.mk true 40 5 3 [] []) rfl,
   claim_C9.2.1 (HMD.mk false 0 0 0 [(2, RawEntry.mk 10 5)] [])
     (HMD.mk false 0 0 0 [(2, RawEntry.mk 40 5)] [(2, 9)]) 2 (RawEntry.mk 40 5) (by decide),
   claim_C9.2.2 [("0", HMD.mk true 10 5 0 [] [])] [("0", HMD.mk true 40 5 3 [] [])]
     "0" (HMD.mk true 10 5 0 [] []) (HMD.mk true 40 5 3 [] [])
     (by decide) (by decide) (by decide) rfl⟩

/-- C2 counterexample: sub-device 1 has consecutive raw entries 10@0 and
20@5 — strictly increasing value and timestamp, no sentinel — yet
`calculateData` leaves its derived value at 99 instead of storing
(20-10)/(5-0) = 2, because the sub-device walk stops at sub-device 0,
which is missing from the previous baseline. -/
theorem claim_C2_counterexample :
    alookup "0" (calculateData
        (some [("0", HMD.mk false 0 0 0 [(1, RawEntry.mk 10 0)] [])])
        [("0", HMD.mk false 0 0 0 [(0, RawEntry.mk 5 5), (1, RawEntry.mk 20 5)] [(1, 99)])]) =
      some (HMD.mk false 0 0 0 [(0, RawEntry.mk 5 5), (1, RawEntry.mk 20 5)] [(1, 99)]) ∧
    (99 : Nat) ≠ (20 - 10) / (5 - 0) :=
  ⟨by decide, by decide⟩

/-- C2 as amended: for consecutive raw entries of the same entity with
strictly increasing raw value and timestamp and no sentinel value, the rate
computation stores exactly (Δvalue)/(Δtime) — for a sub-device entity
additionally provided every sub-device key of the current sample's map is
present in the previous sample's map (the source's walk stops at the first
missing key, which the counterexample exploits). Values are bounded by 2^64
as uint64. -/
theorem claim_C2_amended :
    (∀ (pre cur : SharedData) (devId : String) (preMD md : HMD),
      keysNodup cur → (devId, md) ∈ cur → alookup devId pre = some preMD →
      md.hasRawDataOnDevice = true → preMD.hasRawDataOnDevice = true →
      preMD.rawData ≠ U64MAX → md.rawData ≠ U64MAX →
      preMD.rawData < md.rawData → preMD.rawTimestamp < md.rawTimestamp →
      md.rawData < 18446744073709551616 → md.rawTimestamp < 18446744073709551616 →
      ∃ mdOut, alookup devId (calculateData (some pre) cur) = some mdOut ∧
        mdOut.current = (md.rawData - preMD.rawData) / (md.rawTimestamp - preMD.rawTimestamp)) ∧
    (∀ (pre cur : SharedData) (devId : String) (preMD md : HMD) (sd : Nat) (e pe : RawEntry),
      keysNodup cur → (devId, md) ∈ cur → alookup devId pre = some preMD →
      keysNodup md.subRaw →
      (∀ p ∈ md.subRaw, (alookup p.1 preMD.subRaw).isSome = true) →
      (sd, e) ∈ md.subRaw → alookup sd preMD.subRaw = some pe →
      pe.raw_data ≠ U64MAX → e.raw_data ≠ U64MAX →
      pe.raw_data < e.raw_data → pe.raw_timestamp < e.raw_timestamp →
      e.raw_data < 18446744073709551616 → e.raw_timestamp < 18446744073709551616 →
      ∃ mdOut, alookup devId (calculateData (some pre) cur) = some mdOut ∧
        alookup sd mdOut.subCurrent =
          some ((e.raw_data - pe.raw_data) / (e.raw_timestamp - pe.raw_timestamp))) := by
  constructor
  · intro pre cur devId preMD md hnd hm hpre hb1 hb2 hn1 hn2 hrlt htlt hrbound htbound
    refine ⟨calcDev1 preMD md, ?_, ?_⟩
    · rw [calc_lookup pre hnd hm, hpre]
    · rw [calcDev1_current,
        cdp_set preMD md hb1 hb2 hn1 hn2 (sub64_ne_zero htlt htbound)]
      show sub64 md.rawData preMD.rawData / sub64 md.rawTimestamp preMD.rawTimestamp = _
      rw [sub64_eq_sub (le_of_lt hrlt) hrbound, sub64_eq_sub (le_of_lt htlt) htbound]
  · intro pre cur devId preMD md sd e pe hnd hm hpre hnds hcov hmem hpe h1 h2 hrlt htlt
      hrbound htbound
    refine ⟨calcDev1 preMD md, ?_, ?_⟩
    · rw [calc_lookup pre hnd hm, hpre]
    · have hsub : md.hasSubdeviceRawData = true := hasSub_true_of_mem hmem
      have hpresub : preMD.hasSubdeviceRawData = true := hasSub_true_of_alookup hpe
      rw [calcDev1_eq preMD md hsub hpresub]
      rw [csl_set preMD md.subRaw (calcDevicePart preMD md) sd e pe hcov hnds hmem hpe h1 h2
        (sub64_ne_zero htlt htbound)]
      rw [sub64_eq_sub (le_of_lt hrlt) hrbound, sub64_eq_sub (le_of_lt htlt) htbound]

/-- C2 witness: a device pair 10@0 → 40@5 yields rate 6 and a covered
sub-device pair 10@0 → 20@5 yields rate 2 on concrete samples. -/
theorem claim_C2_witness :
    (∃ mdOut, alookup "0" (calculateData (some [("0", HMD.mk true 10 0 0 [] [])])
        [("0", HMD.mk true 40 5 0 [] [])]) = some mdOut ∧
      mdOut.current = (40 - 10) / (5 - 0)) ∧
    (∃ mdOut, alookup "0" (calculateData
        (some [("0", HMD.mk false 0 0 0 [(1, RawEntry.mk 10 0)] [])])
        [("0", HMD.mk false 0 0 0 [(1, RawEntry.mk 20 5)] [(1, 99)])]) = some mdOut ∧
      alookup 1 mdOut.subCurrent = some ((20 - 10) / (5 - 0))) :=
  ⟨claim_C2_amended.1 [("0", HMD.mk true 10 0 0 [] [])] [("0", HMD.mk true 40 5 0 [] [])]
    "0" (HMD.mk true 10 0 0 [] []) (HMD.mk true 40 5 0 [] [])
    (by decide) (by decide) (by decide) rfl rfl (by decide) (by decide)
    (by decide) (by decide) (by decide) (by decide),
   claim_C2_amended.2 [("0", HMD.mk false 0 0 0 [(1, RawEntry.mk 10 0)] [])]
    [("0", HMD.mk false 0 0 0 [(1, RawEntry.mk 20 5)] [(1, 99)])]
    "0" (HMD.mk false 0 0 0 [(1, RawEntry.mk 10 0)] [])
    (HMD.mk false 0 0 0 [(1, RawEntry.mk 20 5)] [(1, 99)]) 1
    (RawEntry.mk 20 5) (RawEntry.mk 10 0)
    (by decide) (by decide) (by decide) (by decide) (by decide) (by decide) (by decide)
    (by decide) (by decide) (by decide) (by decide) (by decide) (by decide)⟩

/-- C3: a raw value lower than its predecessor's never yields a rate for
any entity. Device level: the whole baseline is discarded, the handled
sample is returned untouched and becomes the fresh baseline. Sub-device
level: running detection then calculation leaves that entity's derived
value exactly at its prior value. Concretely, for the raw sequence
`[100, 40]` no rate is produced from that pair and the sample after 40
(here 90) gets its rate (90-40)/(3-2) = 50 computed against 40. -/
theorem claim_C3 :
    (∀ (pre cur : SharedData) (devId : String) (preMD md : HMD),
      keysNodup cur → (devId, md) ∈ cur → alookup devId pre = some preMD →
      md.hasRawDataOnDevice = true → preMD.hasRawDataOnDevice = true →
      preMD.rawData ≠ U64MAX → md.rawData ≠ U64MAX → md.rawData < preMD.rawData →
      step (some pre) cur = (cur, some cur)) ∧
    (∀ (pre cur : SharedData) (devId : String) (preMD md : HMD) (sd : Nat) (e pe : RawEntry),
      keysNodup cur → (devId, md) ∈ cur → alookup devId pre = some preMD →
      keysNodup md.subRaw → (sd, e) ∈ md.subRaw → alookup sd preMD.subRaw = some pe →
      pe.raw_data ≠ U64MAX → e.raw_data ≠ U64MAX → e.raw_data < pe.raw_data →
      ∃ mdOut, alookup devId (step (some pre) cur).1 = some mdOut ∧
        alookup sd mdOut.subCurrent = alookup sd md.subCurrent) ∧
    (runSamples none [devSample 100 1 0, devSample 40 2 0, devSample 90 3 0] =
      ([devSample 100 1 0, devSample 40 2 0, [("0", HMD.mk true 90 3 50 [] [])]],
       some [("0", HMD.mk true 90 3 50 [] [])])) := by
  refine ⟨?_, ?_, by decide⟩
  · intro pre cur devId preMD md hnd hm hpre hb1 hb2 hn1 hn2 hlt
    have hdn := dl_none cur pre devId preMD md hnd hm hpre hb1 hb2 hn1 hn2 hlt
    simp only [step, hdn]
  · intro pre cur devId preMD md sd e pe hnd hm hpre hnds hmem hpe h1 h2 h3
    cases hdl : detectLoop pre cur with
    | none =>
      refine ⟨md, ?_, rfl⟩
      simp only [step, hdl]
      exact alookup_eq_of_mem hnd hm
    | some pre2 =>
      have hsub : md.hasSubdeviceRawData = true := hasSub_true_of_mem hmem
      have hpresub : preMD.hasSubdeviceRawData = true := hasSub_true_of_alookup hpe
      have hlk : alookup devId pre2 = some (detectSubLoop preMD md.subRaw) := by
        rw [dl_lookup_some cur pre pre2 devId preMD md hnd hm hpre hdl,
          if_pos ⟨hsub, hpresub⟩]
      refine ⟨calcDev1 (detectSubLoop preMD md.subRaw) md, ?_, ?_⟩
      · simp only [step, hdl]
        rw [calc_lookup pre2 hnd hm, hlk]
      · have hdsub : (detectSubLoop preMD md.subRaw).hasSubdeviceRawData = true := by
          simp only [HMD.hasSubdeviceRawData] at hpresub ⊢
          rw [(dsl_preserves md.subRaw preMD).2.2.2.1]
          exact hpresub
        rw [calcDev1_eq _ md hsub hdsub]
        rw [csl_combined md.subRaw preMD (calcDevicePart (detectSubLoop preMD md.subRaw) md)
          sd e pe hnds hmem hpe h1 h2 h3]
        rw [(cdp_preserves _ md).2]

/-- C3 witness: a device-level drop 100→40 discards the baseline and keeps
the sample untouched; a sub-device drop 100→40 leaves its derived value at
its prior value 7. -/
theorem claim_C3_witness :
    step (some [("0", HMD.mk true 100 0 0 [] [])]) [("0", HMD.mk true 40 5 0 [] [])] =
      ([("0", HMD.mk true 40 5 0 [] [])], some [("0", HMD.mk true 40 5 0 [] [])]) ∧
    (∃ mdOut, alookup "0" (step
        (some [("0", HMD.mk false 0 0 0 [(1, RawEntry.mk 100 0)] [])])
        [("0", HMD.mk false 0 0 0 [(1, RawEntry.mk 40 5)] [(1, 7)])]).1 = some mdOut ∧
      alookup 1 mdOut.subCurrent =
        alookup 1 (HMD.mk false 0 0 0 [(1, RawEntry.mk 40 5)] [(1, 7)]).subCurrent) :=
  ⟨claim_C3.1 [("0", HMD.mk true 100 0 0 [] [])] [("0", HMD.mk true 40 5 0 [] [])]
    "0" (HMD.mk true 100 0 0 [] []) (HMD.mk true 40 5 0 [] [])
    (by decide) (by decide) (by decide) rfl rfl (by decide) (by decide) (by decide),
   claim_C3.2.1 [("0", HMD.mk false 0 0 0 [(1, RawEntry.mk 100 0)] [])]
    [("0", HMD.mk false 0 0 0 [(1, RawEntry.mk 40 5)] [(1, 7)])]
    "0" (HMD.mk false 0 0 0 [(1, RawEntry.mk 100 0)] [])
    (HMD.mk false 0 0 0 [(1, RawEntry.mk 40 5)] [(1, 7)]) 1
    (RawEntry.mk 40 5) (RawEntry.mk 100 0)
    (by decide) (by decide) (by decide) (by decide) (by decide) (by decide)
    (by decide) (by decide) (by decide)⟩

/-- C4 counterexample: with two devices, device "0" overflowing
(100 → 40) and device "1" healthy (10 → 20 over 5 time units), the source
discards the previous snapshot of BOTH devices (`p_preData = nullptr`), so
device "1" keeps its prior derived value 7 and does not receive the rate
(20-10)/(5-0) = 2 that the claim's "exactly that device" wording implies. -/
theorem claim_C4_counterexample :
    counterOverflowDetection
        (some [("0", HMD.mk true 100 0 0 [] []), ("1", HMD.mk true 10 0 7 [] [])])
        [("0", HMD.mk true 40 5 0 [] []), ("1", HMD.mk true 20 5 7 [] [])] = none ∧
    alookup "1" (step
        (some [("0", HMD.mk true 100 0 0 [] []), ("1", HMD.mk true 10 0 7 [] [])])
        [("0", HMD.mk true 40 5 0 [] []), ("1", HMD.mk true 20 5 7 [] [])]).1 =
      some (HMD.mk true 20 5 7 [] []) ∧
    (7 : Nat) ≠ (20 - 10) / (5 - 0) :=
  ⟨by decide, by decide, by decide⟩

/-- C4 as amended: device-level overflow discards the handler's whole
previous snapshot (the baselines of every device for that metric type), not
only the overflowing device's; per-sub-device overflow clears exactly that
sub-device's baseline while every sibling sub-device of the same device
retains its baseline and still receives a rate on the same update (when its
own pair passes the guards and the baseline covers the sample's sub-device
keys). -/
theorem claim_C4_amended :
    (∀ (pre cur : SharedData) (devId : String) (preMD md : HMD),
      keysNodup cur → (devId, md) ∈ cur → alookup devId pre = some preMD →
      md.hasRawDataOnDevice = true → preMD.hasRawDataOnDevice = true →
      preMD.rawData ≠ U64MAX → md.rawData ≠ U64MAX → md.rawData < preMD.rawData →
      counterOverflowDetection (some pre) cur = none) ∧
    (∀ (pre cur pre2 : SharedData) (devId : String) (preMD md : HMD) (sd sd' : Nat)
        (e e' pe pe' : RawEntry),
      keysNodup cur → (devId, md) ∈ cur → alookup devId pre = some preMD →
      keysNodup md.subRaw →
      (∀ p ∈ md.subRaw, (alookup p.1 preMD.subRaw).isSome = true) →
      (sd, e) ∈ md.subRaw → alookup sd preMD.subRaw = some pe →
      pe.raw_data ≠ U64MAX → e.raw_data ≠ U64MAX → e.raw_data < pe.raw_data →
      (sd', e') ∈ md.subRaw → sd' ≠ sd → alookup sd' preMD.subRaw = some pe' →
      pe'.raw_data ≠ U64MAX → e'.raw_data ≠ U64MAX → pe'.raw_data ≤ e'.raw_data →
      pe'.raw_timestamp < e'.raw_timestamp →
      e'.raw_data < 18446744073709551616 → e'.raw_timestamp < 18446744073709551616 →
      detectLoop pre cur = some pre2 →
      alookup sd (detectSubLoop preMD md.subRaw).subRaw =
        some (RawEntry.mk U64MAX pe.raw_timestamp) ∧
      alookup sd' (detectSubLoop preMD md.subRaw).subRaw = some pe' ∧
      (∃ mdOut, alookup devId (step (some pre) cur).1 = some mdOut ∧
        alookup sd' mdOut.subCurrent =
          some ((e'.raw_data - pe'.raw_data) / (e'.raw_timestamp - pe'.raw_timestamp)))) := by
  constructor
  · intro pre cur devId preMD md hnd hm hpre hb1 hb2 hn1 hn2 hlt
    exact dl_none cur pre devId preMD md hnd hm hpre hb1 hb2 hn1 hn2 hlt
  · intro pre cur pre2 devId preMD md sd sd' e e' pe pe' hnd hm hpre hnds hcov hmem hpe
      h1 h2 h3 hmem' hne' hpe' hp1 hp2 hple htlt hrbound htbound hdl
    have hkeep : alookup sd' (detectSubLoop preMD md.subRaw).subRaw = some pe' := by
      refine dsl_keep md.subRaw preMD sd' e' pe' hcov hnds hmem' hpe' ?_
      intro hc
      exact absurd hc.2.2 (not_lt.mpr hple)
    refine ⟨dsl_clear md.subRaw preMD sd e pe hcov hnds hmem hpe h1 h2 h3, hkeep, ?_⟩
    have hsub : md.hasSubdeviceRawData = true := hasSub_true_of_mem hmem
    have hpresub : preMD.hasSubdeviceRawData = true := hasSub_true_of_alookup hpe
    have hlk : alookup devId pre2 = some (detectSubLoop preMD md.subRaw) := by
      rw [dl_lookup_some cur pre pre2 devId preMD md hnd hm hpre hdl,
        if_pos ⟨hsub, hpresub⟩]
    refine ⟨calcDev1 (detectSubLoop preMD md.subRaw) md, ?_, ?_⟩
    · simp only [step, hdl]
      rw [calc_lookup pre2 hnd hm, hlk]
    · have hdsub : (detectSubLoop preMD md.subRaw).hasSubdeviceRawData = true := by
        simp only [HMD.hasSubdeviceRawData] at hpresub ⊢
        rw [(dsl_preserves md.subRaw preMD).2.2.2.1]
        exact hpresub
      rw [calcDev1_eq _ md hsub hdsub]
      have hcov2 : ∀ p ∈ md.subRaw,
          (alookup p.1 (detectSubLoop preMD md.subRaw).subRaw).isSome = true := by
        intro p hp
        rw [(dsl_preserves md.subRaw preMD).2.2.2.2 p.1]
        exact hcov p hp
      rw [csl_set (detectSubLoop preMD md.subRaw) md.subRaw
        (calcDevicePart (detectSubLoop preMD md.subRaw) md) sd' e' pe' hcov2 hnds hmem'
        hkeep hp1 hp2 (sub64_ne_zero htlt htbound)]
      rw [sub64_eq_sub hple hrbound, sub64_eq_sub (le_of_lt htlt) htbound]

/-- C4 witness: one device with sub-devices 1 (overflowing 100 → 40) and 2
(healthy 10 → 20 over 5 time units): sub-device 1's baseline is cleared to
the sentinel, sub-device 2 retains its baseline 10@0 and receives the rate
2 on the same update. -/
theorem claim_C4_witness :
    alookup 1 (detectSubLoop (HMD.mk false 0 0 0 [(1, RawEntry.mk 100 0), (2, RawEntry.mk 10 0)] [])
        (HMD.mk false 0 0 0 [(1, RawEntry.mk 40 5), (2, RawEntry.mk 20 5)] []).subRaw).subRaw =
      some (RawEntry.mk U64MAX 0) ∧
    alookup 2 (detectSubLoop (HMD.mk false 0 0 0 [(1, RawEntry.mk 100 0), (2, RawEntry.mk 10 0)] [])
        (HMD.mk false 0 0 0 [(1, RawEntry.mk 40 5), (2, RawEntry.mk 20 5)] []).subRaw).subRaw =
      some (RawEntry.mk 10 0) ∧
    (∃ mdOut, alookup "0" (step
        (some [("0", HMD.mk false 0 0 0 [(1, RawEntry.mk 100 0), (2, RawEntry.mk 10 0)] [])])
        [("0", HMD.mk false 0 0 0 [(1, RawEntry.mk 40 5), (2, RawEntry.mk 20 5)] [])]).1 =
        some mdOut ∧
      alookup 2 mdOut.subCurrent = some ((20 - 10) / (5 - 0))) :=
  claim_C4_amended.2
    [("0", HMD.mk false 0 0 0 [(1, RawEntry.mk 100 0), (2, RawEntry.mk 10 0)] [])]
    [("0", HMD.mk false 0 0 0 [(1, RawEntry.mk 40 5), (2, RawEntry.mk 20 5)] [])]
    [("0", HMD.mk false 0 0 0
      [(1, RawEntry.mk U64MAX 0), (2, RawEntry.mk 10 0)] [])]
    "0" (HMD.mk false 0 0 0 [(1, RawEntry.mk 100 0), (2, RawEntry.mk 10 0)] [])
    (HMD.mk false 0 0 0 [(1, RawEntry.mk 40 5), (2, RawEntry.mk 20 5)] [])
    1 2 (RawEntry.mk 40 5) (RawEntry.mk 20 5) (RawEntry.mk 100 0) (RawEntry.mk 10 0)
    (by decide) (by decide) (by decide) (by decide) (by decide) (by decide) (by decide)
    (by decide) (by decide) (by decide) (by decide) (by decide) (by decide) (by decide)
    (by decide) (by decide) (by decide) (by decide) (by decide) (by decide)

/-! ## Metric and capability enumerations (`utility.cpp`) -/

/-- The measurement types relevant to the claims (`MeasurementType` of
measurement_type.h, restricted to the constructors the embedded code paths
mention). -/
inductive MeasurementType where
  | METRIC_FREQUENCY
  | METRIC_POWER
  | METRIC_ENERGY
  | METRIC_TEMPERATURE
  | METRIC_MEMORY_USED
  | METRIC_MEMORY_UTILIZATION
  | METRIC_MEMORY_BANDWIDTH
  | METRIC_MEMORY_READ
  | METRIC_MEMORY_WRITE
  | METRIC_COMPUTATION
  | METRIC_ENGINE_UTILIZATION
  | METRIC_EU_ACTIVE
  | METRIC_EU_STALL
  | METRIC_EU_IDLE
  | METRIC_RAS_ERROR_CAT_RESET
  | METRIC_RAS_ERROR_CAT_PROGRAMMING_ERRORS
  | METRIC_RAS_ERROR_CAT_DRIVER_ERRORS
  | METRIC_RAS_ERROR_CAT_CACHE_ERRORS_CORRECTABLE
  | METRIC_RAS_ERROR_CAT_CACHE_ERRORS_UNCORRECTABLE
  | METRIC_RAS_ERROR_CAT_DISPLAY_ERRORS_CORRECTABLE
  | METRIC_RAS_ERROR_CAT_DISPLAY_ERRORS_UNCORRECTABLE
  | METRIC_RAS_ERROR_CAT_NON_COMPUTE_ERRORS_CORRECTABLE
  | METRIC_RAS_ERROR_CAT_NON_COMPUTE_ERRORS_UNCORRECTABLE
  | METRIC_PCIE_READ_THROUGHPUT
  | METRIC_PCIE_WRITE_THROUGHPUT
  | METRIC_PCIE_READ
  | METRIC_PCIE_WRITE
  | METRIC_FABRIC_THROUGHPUT
  deriving DecidableEq, Fintype

/-- `DeviceCapability` (device capability flags), restricted likewise. -/
inductive DeviceCapability where
  | METRIC_TEMPERATURE
  | METRIC_FREQUENCY
  | METRIC_POWER
  | METRIC_ENERGY
  | METRIC_MEMORY_USED_UTILIZATION
  | METRIC_MEMORY_THROUGHPUT_BANDWIDTH
  | METRIC_COMPUTATION
  | METRIC_ENGINE_UTILIZATION
  | METRIC_EU_ACTIVE_STALL_IDLE
  | METRIC_RAS_ERROR
  | METRIC_PCIE_READ_THROUGHPUT
  | METRIC_PCIE_WRITE_THROUGHPUT
  | METRIC_PCIE_READ
  | METRIC_PCIE_WRITE
  | METRIC_FABRIC_THROUGHPUT
  | DEVICE_CAPABILITY_MAX
  deriving DecidableEq

/-- `Utility::capabilityFromMeasurementType` (utility.cpp lines 127-214),
restricted to the modelled constructors. -/
def capabilityFromMeasurementType : MeasurementType → DeviceCapability
  | .METRIC_FREQUENCY => .METRIC_FREQUENCY
  | .METRIC_POWER => .METRIC_POWER
  | .METRIC_ENERGY => .METRIC_ENERGY
  | .METRIC_TEMPERATURE => .METRIC_TEMPERATURE
  | .METRIC_MEMORY_USED => .METRIC_MEMORY_USED_UTILIZATION
  | .METRIC_MEMORY_UTILIZATION => .METRIC_MEMORY_USED_UTILIZATION
  | .METRIC_MEMORY_BANDWIDTH => .METRIC_MEMORY_THROUGHPUT_BANDWIDTH
  | .METRIC_MEMORY_READ => .METRIC_MEMORY_THROUGHPUT_BANDWIDTH
  | .METRIC_MEMORY_WRITE => .METRIC_MEMORY_THROUGHPUT_BANDWIDTH
  | .METRIC_COMPUTATION => .METRIC_COMPUTATION
  | .METRIC_ENGINE_UTILIZATION => .METRIC_ENGINE_UTILIZATION
  | .METRIC_EU_ACTIVE => .METRIC_EU_ACTIVE_STALL_IDLE
  | .METRIC_EU_STALL => .METRIC_EU_ACTIVE_STALL_IDLE
  | .METRIC_EU_IDLE => .METRIC_EU_ACTIVE_STALL_IDLE
  | .METRIC_RAS_ERROR_CAT_RESET => .METRIC_RAS_ERROR
  | .METRIC_RAS_ERROR_CAT_PROGRAMMING_ERRORS => .METRIC_RAS_ERROR
  | .METRIC_RAS_ERROR_CAT_DRIVER_ERRORS => .METRIC_RAS_ERROR
  | .METRIC_RAS_ERROR_CAT_CACHE_ERRORS_CORRECTABLE => .METRIC_RAS_ERROR
  | .METRIC_RAS_ERROR_CAT_CACHE_ERRORS_UNCORRECTABLE => .METRIC_RAS_ERROR
  | .METRIC_RAS_ERROR_CAT_DISPLAY_ERRORS_CORRECTABLE => .METRIC_RAS_ERROR
  | .METRIC_RAS_ERROR_CAT_DISPLAY_ERRORS_UNCORRECTABLE => .METRIC_RAS_ERROR
  | .METRIC_RAS_ERROR_CAT_NON_COMPUTE_ERRORS_CORRECTABLE => .METRIC_RAS_ERROR
  | .METRIC_RAS_ERROR_CAT_NON_COMPUTE_ERRORS_UNCORRECTABLE => .METRIC_RAS_ERROR
  | .METRIC_PCIE_READ_THROUGHPUT => .METRIC_PCIE_READ_THROUGHPUT
  | .METRIC_PCIE_WRITE_THROUGHPUT => .METRIC_PCIE_WRITE_THROUGHPUT
  | .METRIC_PCIE_READ => .METRIC_PCIE_READ
  | .METRIC_PCIE_WRITE => .METRIC_PCIE_WRITE
  | .METRIC_FABRIC_THROUGHPUT => .METRIC_FABRIC_THROUGHPUT

/-- `Utility::isCounterMetric` (utility.cpp lines 222-237). -/
def isCounterMetric (t : MeasurementType) : Bool :=
  match t with
  | .METRIC_ENERGY => true
  | .METRIC_MEMORY_READ => true
  | .METRIC_MEMORY_WRITE => true
  | .METRIC_RAS_ERROR_CAT_RESET => true
  | .METRIC_RAS_ERROR_CAT_PROGRAMMING_ERRORS => true
  | .METRIC_RAS_ERROR_CAT_DRIVER_ERRORS => true
  | .METRIC_RAS_ERROR_CAT_CACHE_ERRORS_CORRECTABLE => true
  | .METRIC_RAS_ERROR_CAT_CACHE_ERRORS_UNCORRECTABLE => true
  | .METRIC_RAS_ERROR_CAT_DISPLAY_ERRORS_CORRECTABLE => true
  | .METRIC_RAS_ERROR_CAT_DISPLAY_ERRORS_UNCORRECTABLE => true
  | .METRIC_RAS_ERROR_CAT_NON_COMPUTE_ERRORS_CORRECTABLE => true
  | .METRIC_RAS_ERROR_CAT_NON_COMPUTE_ERRORS_UNCORRECTABLE => true
  | .METRIC_PCIE_READ => true
  | .METRIC_PCIE_WRITE => true
  | _ => false

/-- Modelled from the spec: data_logic.cpp (lines 118-119) tests membership
in the sparse set by enum-value ranges
(`METRIC_RAS_ERROR_CAT_RESET ≤ t ≤ METRIC_RAS_ERROR_CAT_NON_COMPUTE_ERRORS_UNCORRECTABLE`
and `METRIC_EU_ACTIVE ≤ t ≤ METRIC_EU_IDLE`); measurement_type.h with the
enum layout is not under `src/`, and the spec names the sparse set as "the
RAS error categories and EU active/stall/idle". -/
def isSparseMetric (t : MeasurementType) : Bool :=
  match t with
  | .METRIC_RAS_ERROR_CAT_RESET => true
  | .METRIC_RAS_ERROR_CAT_PROGRAMMING_ERRORS => true
  | .METRIC_RAS_ERROR_CAT_DRIVER_ERRORS => true
  | .METRIC_RAS_ERROR_CAT_CACHE_ERRORS_CORRECTABLE => true
  | .METRIC_RAS_ERROR_CAT_CACHE_ERRORS_UNCORRECTABLE => true
  | .METRIC_RAS_ERROR_CAT_DISPLAY_ERRORS_CORRECTABLE => true
  | .METRIC_RAS_ERROR_CAT_DISPLAY_ERRORS_UNCORRECTABLE => true
  | .METRIC_RAS_ERROR_CAT_NON_COMPUTE_ERRORS_CORRECTABLE => true
  | .METRIC_RAS_ERROR_CAT_NON_COMPUTE_ERRORS_UNCORRECTABLE => true
  | .METRIC_EU_ACTIVE => true
  | .METRIC_EU_STALL => true
  | .METRIC_EU_IDLE => true
  | _ => false

/-- The capability filter shared by every assembler (data_logic.cpp
lines 95-101 and analogues): a metric type survives exactly when some
device capability equals its required capability. -/
def filteredMetrics (enabled : List MeasurementType) (caps : List DeviceCapability) :
    List MeasurementType :=
  enabled.filter (fun t => decide (capabilityFromMeasurementType t ∈ caps))

/-! ## getMetricsStatistics / getLatestMetrics (`data_logic.cpp`) -/

/-- Per-sub-device slice of a statistics `MeasurementData`
(`Statistics_subdevice_data` folded into the retrieved copy). -/
structure SubStats where
  current : Nat
  min : Nat
  max : Nat
  avg : Nat
  deriving DecidableEq

/-- The slice of a retrieved `MeasurementData` that row assembly reads:
device-level statistics, scale, timestamp, and per-sub-device statistics. -/
structure StatsMD where
  hasDataOnDevice : Bool
  scale : Nat
  current : Nat
  min : Nat
  max : Nat
  avg : Nat
  timestamp : Nat
  sub : List (Nat × SubStats)
  deriving DecidableEq

/-- `xpum_device_stats_data_t` (zero-initialized, then filled). -/
structure StatsRowData where
  metricsType : MeasurementType
  isCounter : Bool
  value : Nat
  accumulated : Nat
  min : Nat
  max : Nat
  avg : Nat
  scale : Nat
  deriving DecidableEq

/-- `xpum_device_stats_t`: one output row (device-level or one tile). -/
structure DeviceStatsRow where
  deviceId : Nat
  tileId : Nat
  isTileData : Bool
  data : List StatsRowData
  deriving DecidableEq

/-- `xpum_result_t`, restricted to the codes the embedded paths return. -/
inductive XpumResult where
  | ok
  | deviceNotFound
  | bufferTooSmall
  | metricNotEnabled
  | metricNotSupported
  | genericError
  deriving DecidableEq

/-- The per-device facts `getMetricsStatistics` consults: sub-device count
(property `NUMBER_OF_SUBDEVICE`) and the capability set. -/
structure DeviceInfo where
  numSubdevice : Nat
  capabilities : List DeviceCapability
  deriving DecidableEq

/-- The collaborators of `getMetricsStatistics`/`getLatestMetrics`: the
device manager, the enabled-metric configuration, the per-session statistics
store (indexed by elapsed seconds, for the sparse-metric retry), the
latest-sample store, the PVC idle-power probe and the session timestamps. -/
structure StatsWorld where
  devices : Nat → Option DeviceInfo
  enabledMetrics : List MeasurementType
  statsStore : MeasurementType → Nat → Option StatsMD
  latestStore : MeasurementType → Option StatsMD
  pvcIdlePower : StatsMD
  beginTs : Nat
  nowTs : Nat

/-- The sparse-metric retry loop (data_logic.cpp lines 120-131): while no
more than 30 seconds have elapsed, query the statistics store for the
current second and sleep one second on failure. The store is indexed by
elapsed seconds. -/
def retryLoop (store : Nat → Option StatsMD) (t : Nat) : Option StatsMD :=
  if h : t ≤ 30 then
    match store t with
    | some d => some d
    | none => retryLoop store (t + 1)
  else none
termination_by 31 - t
decreasing_by omega

/-- The store query of `getMetricsStatistics` for one metric type: the
initial query, followed — only for a sparse metric that returned no
data — by the 30-second retry loop. -/
def queryWithRetry (isSparse : Bool) (store : Nat → Option StatsMD) : Option StatsMD :=
  match store 0 with
  | some d => some d
  | none => if isSparse then retryLoop store 0 else none

/-- Gathering of one metric type into `m_datas` (lines 106-135): skip the
multi-entity types; for the power metric with device-level idle-power data,
substitute the idle-power sample; otherwise query the statistics store
(with the sparse retry). -/
def gatherOne (W : StatsWorld) (t : MeasurementType) : Option (MeasurementType × StatsMD) :=
  if t = MeasurementType.METRIC_ENGINE_UTILIZATION ∨
      t = MeasurementType.METRIC_FABRIC_THROUGHPUT then none
  else if t = MeasurementType.METRIC_POWER ∧ W.pvcIdlePower.hasDataOnDevice then
    some (t, W.pvcIdlePower)
  else
    match queryWithRetry (isSparseMetric t) (W.statsStore t) with
    | some md => some (t, md)
    | none => none

/-- The `m_datas` map of `getMetricsStatistics`, in metric-type order. -/
def gatherStats (W : StatsWorld) (dev : DeviceInfo) : List (MeasurementType × StatsMD) :=
  (filteredMetrics W.enabledMetrics dev.capabilities).filterMap (gatherOne W)

/-- One device-level statistics datum (lines 148-162). The row stores the
measurement type itself; `xpumStatsTypeFromMeasurementType` is a bijective
relabelling not modelled. Subtraction is the source's uint64 wrap-around
subtraction. -/
def mkStatsData (t : MeasurementType) (md : StatsMD) : StatsRowData :=
  if isCounterMetric t then
    { metricsType := t, isCounter := true, value := sub64 md.current md.min,
      accumulated := md.current, min := 0, max := 0, avg := 0, scale := md.scale }
  else
    { metricsType := t, isCounter := false, value := md.current, accumulated := 0,
      min := md.min, max := md.max, avg := md.avg, scale := md.scale }

/-- One tile statistics datum (lines 184-198). -/
def mkSubStatsData (t : MeasurementType) (md : StatsMD) (s : SubStats) : StatsRowData :=
  if isCounterMetric t then
    { metricsType := t, isCounter := true, value := sub64 s.current s.min,
      accumulated := s.current, min := 0, max := 0, avg := 0, scale := md.scale }
  else
    { metricsType := t, isCounter := false, value := s.current, accumulated := 0,
      min := s.min, max := s.max, avg := s.avg, scale := md.scale }

/-- The device-level row contents (lines 144-167): empty unless some metric
has device-level data; then one datum per gathered metric with device-level
data. -/
def deviceRowData (gathered : List (MeasurementType × StatsMD)) (hasAny : Bool) :
    List StatsRowData :=
  if hasAny then
    gathered.filterMap (fun p =>
      if p.2.hasDataOnDevice then some (mkStatsData p.1 p.2) else none)
  else []

/-- The contents of tile row `i` (lines 180-202): one datum per gathered
metric that has sub-device data for tile `i` whose current value is not the
no-data sentinel. -/
def tileRowData (gathered : List (MeasurementType × StatsMD)) (i : Nat) :
    List StatsRowData :=
  gathered.filterMap (fun p =>
    if p.2.sub.isEmpty then none
    else
      match alookup i p.2.sub with
      | none => none
      | some s => if s.current ≠ U64MAX then some (mkSubStatsData p.1 p.2 s) else none)

/-- The row-writing protocol of `getMetricsStatistics` (lines 168-208):
before each row, `index >= *count` aborts with `XPUM_BUFFER_TOO_SMALL`
(leaving `*count` unwritten); on success `*count` receives the number of
rows written. -/
def writeAll (cap : Nat) : List DeviceStatsRow → Nat → List DeviceStatsRow →
    XpumResult × List DeviceStatsRow × Option Nat
  | [], idx, acc => (XpumResult.ok, acc.reverse, some idx)
  | r :: rest, idx, acc =>
    if idx ≥ cap then (XpumResult.bufferTooSmall, acc.reverse, none)
    else writeAll cap rest (idx + 1) (r :: acc)

/-- The outcome of a `getMetricsStatistics` call: result code, the rows
written to `dataList`, and the values written (if any) to `*count`,
`*begin` and `*end`. -/
structure StatsCall where
  result : XpumResult
  rows : List DeviceStatsRow
  countOut : Option Nat
  beginOut : Option Nat
  endOut : Option Nat
  deriving DecidableEq

/-- `DataLogic::getMetricsStatistics` (data_logic.cpp lines 71-210).
`dataList` is `none` for a sizing call (null output buffer) and
`some cap` for a call whose `*count` holds capacity `cap`. -/
def getMetricsStatistics (W : StatsWorld) (deviceId : Nat) (dataList : Option Nat) :
    StatsCall :=
  match W.devices deviceId with
  | none => ⟨XpumResult.deviceNotFound, [], none, none, none⟩
  | some dev =>
    match dataList with
    | none => ⟨XpumResult.ok, [], some (dev.numSubdevice + 1), none, none⟩
    | some cap =>
      let gathered := gatherStats W dev
      let hasAny := gathered.any (fun p => p.2.hasDataOnDevice)
      let deviceRow : DeviceStatsRow := ⟨deviceId, 0, false, deviceRowData gathered hasAny⟩
      let tileRows := (List.range dev.numSubdevice).map
        (fun i => (⟨deviceId, i, true, tileRowData gathered i⟩ : DeviceStatsRow))
      let w := writeAll cap (deviceRow :: tileRows) 0 []
      ⟨w.1, w.2.1, w.2.2, some W.beginTs, some W.nowTs⟩

/-- `xpum_device_metric_data_t`. -/
structure MetricRowData where
  metricsType : MeasurementType
  isCounter : Bool
  value : Nat
  timestamp : Nat
  scale : Nat
  deriving DecidableEq

/-- `xpum_device_metrics_t`: one snapshot row. -/
structure DeviceMetricsRow where
  deviceId : Nat
  tileId : Nat
  isTileData : Bool
  data : List MetricRowData
  deriving DecidableEq

/-- The outcome of a `getLatestMetrics` call (the source returns `void`):
rows written and the value written (if any) to `*count`. -/
structure LatestCall where
  rows : List DeviceMetricsRow
  countOut : Option Nat
  deriving DecidableEq

/-- The C++ comma operator: both operands are evaluated, the value is the
second. `getLatestMetrics` line 248 guards the idle-power substitution with
`(… && p_pvc_idle_power->hasDataOnDevice(), false)`, which always yields
`false`. -/
def commaExpr (a b : Bool) : Bool := b

/-- One device-level snapshot datum (lines 270-277). -/
def mkMetricData (t : MeasurementType) (md : StatsMD) : MetricRowData :=
  { metricsType := t, isCounter := isCounterMetric t, value := md.current,
    timestamp := md.timestamp, scale := md.scale }

/-- One tile snapshot datum (lines 295-302). -/
def mkSubMetricData (t : MeasurementType) (md : StatsMD) (s : SubStats) : MetricRowData :=
  { metricsType := t, isCounter := isCounterMetric t, value := s.current,
    timestamp := md.timestamp, scale := md.scale }

/-- Gathering of one metric type in `getLatestMetrics` (lines 244-259):
skip the multi-entity types; the idle-power branch condition is the comma
expression of line 248 and never fires; otherwise the latest sample is
taken. -/
def latestOne (W : StatsWorld) (t : MeasurementType) : Option (MeasurementType × StatsMD) :=
  if t = MeasurementType.METRIC_ENGINE_UTILIZATION ∨
      t = MeasurementType.METRIC_FABRIC_THROUGHPUT then none
  else if commaExpr (decide (t = MeasurementType.METRIC_POWER) &&
      W.pvcIdlePower.hasDataOnDevice) false = true then
    some (t, W.pvcIdlePower)
  else (W.latestStore t).map (fun md => (t, md))

/-- The `m_datas` map of `getLatestMetrics`. -/
def gatherLatest (W : StatsWorld) (dev : DeviceInfo) : List (MeasurementType × StatsMD) :=
  (filteredMetrics W.enabledMetrics dev.capabilities).filterMap (latestOne W)

/-- Device-level snapshot row contents (lines 266-281). -/
def deviceMetricsData (gathered : List (MeasurementType × StatsMD)) (hasAny : Bool) :
    List MetricRowData :=
  if hasAny then
    gathered.filterMap (fun p =>
      if p.2.hasDataOnDevice then some (mkMetricData p.1 p.2) else none)
  else []

/-- Tile snapshot row contents (lines 291-305). -/
def tileMetricsData (gathered : List (MeasurementType × StatsMD)) (i : Nat) :
    List MetricRowData :=
  gathered.filterMap (fun p =>
    if p.2.sub.isEmpty then none
    else
      match alookup i p.2.sub with
      | none => none
      | some s => if s.current ≠ U64MAX then some (mkSubMetricData p.1 p.2 s) else none)

/-- `DataLogic::getLatestMetrics` (data_logic.cpp lines 212-308).
`hasBuffer` is false for a sizing call (null `dataList`); rows are written
without any capacity check. -/
def getLatestMetrics (W : StatsWorld) (deviceId : Nat) (hasBuffer : Bool) : LatestCall :=
  match W.devices deviceId with
  | none => ⟨[], none⟩
  | some dev =>
    if hasBuffer = false then ⟨[], some (dev.numSubdevice + 1)⟩
    else
      let gathered := gatherLatest W dev
      let hasAny := gathered.any (fun p => p.2.hasDataOnDevice)
      let deviceRow : DeviceMetricsRow := ⟨deviceId, 0, false, deviceMetricsData gathered hasAny⟩
      let tileRows := (List.range dev.numSubdevice).map
        (fun i => (⟨deviceId, i, true, tileMetricsData gathered i⟩ : DeviceMetricsRow))
      ⟨deviceRow :: tileRows, some (dev.numSubdevice + 1)⟩

/-! ## getEngineStatistics (`data_logic.cpp` lines 310-382) -/

/-- One entry of the engine multi-metrics map: per-engine statistics. -/
structure EngineEntity where
  on_subdevice : Bool
  subdevice_id : Nat
  current : Nat
  min : Nat
  max : Nat
  avg : Nat
  deriving DecidableEq

/-- The engine-utilization statistics sample. -/
structure EngineMD where
  scale : Nat
  entities : List (Nat × EngineEntity)
  deriving DecidableEq

/-- Per-device facts `getEngineStatistics` consults. -/
structure EngineDeviceInfo where
  engineCount : Nat
  capabilities : List DeviceCapability
  deriving DecidableEq

/-- Collaborators of `getEngineStatistics`: device manager, configuration,
the engine statistics store, topology lookups (`getEngineIndex` returning
the uint32 sentinel when unresolved, and the engine type), and session
timestamps. -/
structure EngineWorld where
  devices : Nat → Option EngineDeviceInfo
  enabledMetrics : List MeasurementType
  engineStats : Option EngineMD
  engineIndexOf : Nat → Nat
  engineTypeOf : Nat → Nat
  beginTs : Nat
  nowTs : Nat

/-- `xpum_device_engine_stats_t`. -/
structure EngineStatsRow where
  deviceId : Nat
  isTileData : Bool
  tileId : Nat
  value : Nat
  min : Nat
  avg : Nat
  max : Nat
  index : Nat
  scale : Nat
  engineType : Nat
  deriving DecidableEq

/-- The outcome of a `getEngineStatistics` call. -/
structure EngineCall where
  result : XpumResult
  rows : List EngineStatsRow
  countOut : Option Nat
  beginOut : Option Nat
  endOut : Option Nat
  deriving DecidableEq

/-- One engine statistics row (lines 361-371). -/
def mkEngineRow (W : EngineWorld) (deviceId scale h : Nat) (ent : EngineEntity) :
    EngineStatsRow :=
  { deviceId := deviceId, isTileData := ent.on_subdevice, tileId := ent.subdevice_id,
    value := ent.current, min := ent.min, avg := ent.avg, max := ent.max,
    index := W.engineIndexOf h, scale := scale, engineType := W.engineTypeOf h }

/-- The entry loop of `getEngineStatistics` (lines 354-380): entries with an
unresolved engine index or the no-data sentinel value are skipped; a
resolvable entry beyond the capacity aborts with `XPUM_BUFFER_TOO_SMALL`. -/
def engineLoop (W : EngineWorld) (deviceId scale cap : Nat) :
    List (Nat × EngineEntity) → Nat → List EngineStatsRow →
    XpumResult × List EngineStatsRow × Option Nat
  | [], idx, acc => (XpumResult.ok, acc.reverse, some idx)
  | (h, ent) :: rest, idx, acc =>
    if W.engineIndexOf h ≠ U32MAX ∧ ent.current ≠ U64MAX then
      if idx ≥ cap then (XpumResult.bufferTooSmall, acc.reverse, none)
      else engineLoop W deviceId scale cap rest (idx + 1)
        (mkEngineRow W deviceId scale h ent :: acc)
    else engineLoop W deviceId scale cap rest idx acc

/-- `DataLogic::getEngineStatistics` (data_logic.cpp lines 310-382). -/
def getEngineStatistics (W : EngineWorld) (deviceId : Nat) (dataList : Option Nat) :
    EngineCall :=
  match W.devices deviceId with
  | none => ⟨XpumResult.deviceNotFound, [], none, none, none⟩
  | some dev =>
    match dataList with
    | none => ⟨XpumResult.ok, [], some dev.engineCount, none, none⟩
    | some cap =>
      if MeasurementType.METRIC_ENGINE_UTILIZATION ∉ W.enabledMetrics then
        ⟨XpumResult.metricNotEnabled, [], some 0, some W.beginTs, some W.nowTs⟩
      else if MeasurementType.METRIC_ENGINE_UTILIZATION ∉
          filteredMetrics W.enabledMetrics dev.capabilities then
        ⟨XpumResult.metricNotSupported, [], some 0, some W.beginTs, some W.nowTs⟩
      else
        match W.engineStats with
        | none => ⟨XpumResult.ok, [], some 0, some W.beginTs, some W.nowTs⟩
        | some md =>
          let r := engineLoop W deviceId md.scale cap md.entities 0 []
          ⟨r.1, r.2.1, r.2.2, some W.beginTs, some W.nowTs⟩

/-! ## Fabric assemblers (`data_logic.cpp` lines 449-630) -/

/-- `FabricThroughputType`: gauges (instantaneous bandwidth) and counters
(accumulated byte totals). -/
inductive FabricThroughputType where
  | TRANSMITTED
  | RECEIVED
  | TRANSMITTED_COUNTER
  | RECEIVED_COUNTER
  deriving DecidableEq

/-- `FabricThroughputInfo`: the topology record of one fabric link
endpoint. -/
structure FabricInfo where
  attach_id : Nat
  remote_fabric_id : Nat
  remote_attach_id : Nat
  ftype : FabricThroughputType
  deriving DecidableEq

/-- One entry of the fabric multi-metrics map. -/
structure FabricEntity where
  current : Nat
  min : Nat
  max : Nat
  avg : Nat
  deriving DecidableEq

/-- The fabric-throughput sample. -/
structure FabricMD where
  scale : Nat
  timestamp : Nat
  entities : List (Nat × FabricEntity)
  deriving DecidableEq

/-- Per-device facts the fabric assemblers consult. -/
structure FabricDeviceInfo where
  fabricInfoCount : Nat
  capabilities : List DeviceCapability
  deriving DecidableEq

/-- Collaborators of the fabric assemblers: device manager, configuration,
the statistics and latest stores, `getFabricThroughputInfo` as a partial
topology lookup, `getDeviceIDByFabricID` (`none` models the empty string of
an unresolvable remote fabric id), and session timestamps. -/
structure FabricWorld where
  devices : Nat → Option FabricDeviceInfo
  enabledMetrics : List MeasurementType
  fabricStats : Option FabricMD
  fabricLatest : Option FabricMD
  fabricInfoOf : Nat → Option FabricInfo
  deviceIdByFabricId : Nat → Option Nat
  beginTs : Nat
  nowTs : Nat

/-- `xpum_device_fabric_throughput_stats_t` (zero-initialized, then
filled). The row stores the `FabricThroughputType` itself;
`toXPUMFabricThroughputType` is a bijective relabelling not modelled. -/
structure FabricStatsRow where
  deviceId : Nat
  tile_id : Nat
  remote_device_id : Nat
  remote_device_tile_id : Nat
  ftype : FabricThroughputType
  value : Nat
  accumulated : Nat
  min : Nat
  avg : Nat
  max : Nat
  scale : Nat
  deriving DecidableEq

/-- The outcome of a `getFabricThroughputStatistics` call. -/
structure FabricCall where
  result : XpumResult
  rows : List FabricStatsRow
  countOut : Option Nat
  beginOut : Option Nat
  endOut : Option Nat
  deriving DecidableEq

/-- One fabric statistics row (lines 521-544): counter types report
`value = current - min` (uint64 subtraction), `accumulated = current` and
fixed scale 1; gauge types report current/min/avg/max at the sample's own
scale. -/
def mkFabricStatsRow (deviceId scale : Nat) (info : FabricInfo) (rid : Nat)
    (m : FabricEntity) : FabricStatsRow :=
  if info.ftype = FabricThroughputType.TRANSMITTED_COUNTER ∨
      info.ftype = FabricThroughputType.RECEIVED_COUNTER then
    { deviceId := deviceId, tile_id := info.attach_id, remote_device_id := rid,
      remote_device_tile_id := info.remote_attach_id, ftype := info.ftype,
      value := sub64 m.current m.min, accumulated := m.current,
      min := 0, avg := 0, max := 0, scale := 1 }
  else
    { deviceId := deviceId, tile_id := info.attach_id, remote_device_id := rid,
      remote_device_tile_id := info.remote_attach_id, ftype := info.ftype,
      value := m.current, accumulated := 0, min := m.min, avg := m.avg, max := m.max,
      scale := scale }

/-- The entry loop of `getFabricThroughputStatistics` (lines 515-549):
entries without topology info are skipped; an entry whose remote fabric id
resolves to no device id aborts the whole call with `XPUM_GENERIC_ERROR`. -/
def fabricStatsLoop (W : FabricWorld) (deviceId scale : Nat) :
    List (Nat × FabricEntity) → List FabricStatsRow → XpumResult × List FabricStatsRow
  | [], acc => (XpumResult.ok, acc.reverse)
  | (fid, m) :: rest, acc =>
    match W.fabricInfoOf fid with
    | none => fabricStatsLoop W deviceId scale rest acc
    | some info =>
      match W.deviceIdByFabricId info.remote_fabric_id with
      | none => (XpumResult.genericError, acc.reverse)
      | some rid =>
        fabricStatsLoop W deviceId scale rest (mkFabricStatsRow deviceId scale info rid m :: acc)

/-- `DataLogic::getFabricThroughputStatistics` (data_logic.cpp
lines 449-552). -/
def getFabricThroughputStatistics (W : FabricWorld) (deviceId : Nat) (dataList : Option Nat) :
    FabricCall :=
  match W.devices deviceId with
  | none => ⟨XpumResult.deviceNotFound, [], some 0, none, none⟩
  | some dev =>
    if MeasurementType.METRIC_FABRIC_THROUGHPUT ∉ W.enabledMetrics then
      ⟨XpumResult.metricNotEnabled, [], some 0, none, none⟩
    else if MeasurementType.METRIC_FABRIC_THROUGHPUT ∉
        filteredMetrics W.enabledMetrics dev.capabilities then
      ⟨XpumResult.metricNotSupported, [], some 0, none, none⟩
    else
      match dataList with
      | none => ⟨XpumResult.ok, [], some dev.fabricInfoCount, none, none⟩
      | some cap =>
        if dev.fabricInfoCount = 0 then
          ⟨XpumResult.ok, [], some dev.fabricInfoCount, none, none⟩
        else
          match W.fabricStats with
          | none => ⟨XpumResult.ok, [], some 0, none, none⟩
          | some md =>
            let total := (md.entities.filter (fun p => (W.fabricInfoOf p.1).isSome)).length
            if cap < total then
              ⟨XpumResult.bufferTooSmall, [], some total, none, none⟩
            else if md.timestamp < W.beginTs then
              ⟨XpumResult.ok, [], some 0, some W.beginTs, some W.nowTs⟩
            else
              let r := fabricStatsLoop W deviceId md.scale md.entities []
              if r.1 = XpumResult.ok then
                ⟨XpumResult.ok, r.2, some r.2.length, some W.beginTs, some W.nowTs⟩
              else ⟨r.1, r.2, none, some W.beginTs, some W.nowTs⟩

/-- `xpum_device_fabric_throughput_metric_t`. -/
structure FabricMetricRow where
  deviceId : Nat
  tile_id : Nat
  remote_device_id : Nat
  remote_device_tile_id : Nat
  ftype : FabricThroughputType
  value : Nat
  scale : Nat
  deriving DecidableEq

/-- The outcome of a `getFabricThroughput` call. -/
structure FabricMetricCall where
  result : XpumResult
  rows : List FabricMetricRow
  countOut : Option Nat
  deriving DecidableEq

/-- One fabric snapshot row (lines 602-619): counter types at fixed
scale 1, gauges at the sample's scale; `value` is the raw current value. -/
def mkFabricMetricRow (deviceId scale : Nat) (info : FabricInfo) (rid : Nat)
    (m : FabricEntity) : FabricMetricRow :=
  { deviceId := deviceId, tile_id := info.attach_id, remote_device_id := rid,
    remote_device_tile_id := info.remote_attach_id, ftype := info.ftype,
    value := m.current,
    scale := if info.ftype = FabricThroughputType.TRANSMITTED_COUNTER ∨
        info.ftype = FabricThroughputType.RECEIVED_COUNTER then 1 else scale }

/-- The entry loop of `getFabricThroughput` (lines 596-627): like the
statistics loop, but with a per-entry capacity check before each write. -/
def fabricMetricLoop (W : FabricWorld) (deviceId scale cap : Nat) :
    List (Nat × FabricEntity) → Nat → List FabricMetricRow →
    XpumResult × List FabricMetricRow × Option Nat
  | [], idx, acc => (XpumResult.ok, acc.reverse, some idx)
  | (fid, m) :: rest, idx, acc =>
    match W.fabricInfoOf fid with
    | none => fabricMetricLoop W deviceId scale cap rest idx acc
    | some info =>
      match W.deviceIdByFabricId info.remote_fabric_id with
      | none => (XpumResult.genericError, acc.reverse, none)
      | some rid =>
        if idx ≥ cap then (XpumResult.bufferTooSmall, acc.reverse, none)
        else fabricMetricLoop W deviceId scale cap rest (idx + 1)
          (mkFabricMetricRow deviceId scale info rid m :: acc)

/-- `DataLogic::getFabricThroughput` (data_logic.cpp lines 554-630). A
sizing call is `dataList = none` or a capacity of 0. -/
def getFabricThroughput (W : FabricWorld) (deviceId : Nat) (dataList : Option Nat) :
    FabricMetricCall :=
  match W.devices deviceId with
  | none => ⟨XpumResult.deviceNotFound, [], some 0⟩
  | some dev =>
    if MeasurementType.METRIC_FABRIC_THROUGHPUT ∉ W.enabledMetrics then
      ⟨XpumResult.metricNotEnabled, [], some 0⟩
    else if MeasurementType.METRIC_FABRIC_THROUGHPUT ∉
        filteredMetrics W.enabledMetrics dev.capabilities then
      ⟨XpumResult.metricNotSupported, [], some 0⟩
    else
      match dataList with
      | none => ⟨XpumResult.ok, [], some dev.fabricInfoCount⟩
      | some cap =>
        if cap = 0 then ⟨XpumResult.ok, [], some dev.fabricInfoCount⟩
        else
          match W.fabricLatest with
          | none => ⟨XpumResult.ok, [], some 0⟩
          | some md =>
            let r := fabricMetricLoop W deviceId md.scale cap md.entities 0 []
            ⟨r.1, r.2.1, r.2.2⟩

/-! ## Buffer-protocol lemmas -/

theorem writeAll_ok (rows : List DeviceStatsRow) : ∀ (cap idx : Nat) (acc : List DeviceStatsRow),
    idx + rows.length ≤ cap →
    writeAll cap rows idx acc =
      (XpumResult.ok, acc.reverse ++ rows, some (idx + rows.length)) := by
  induction rows with
  | nil =>
    intro cap idx acc _
    simp [writeAll]
  | cons r rest ih =>
    intro cap idx acc hle
    simp only [List.length_cons] at hle
    have hlt : ¬ idx ≥ cap := by omega
    simp only [writeAll, if_neg hlt]
    rw [ih cap (idx + 1) (r :: acc) (by omega)]
    have hn : idx + 1 + rest.length = idx + (rest.length + 1) := by omega
    simp [List.reverse_cons, List.append_assoc, hn]

theorem writeAll_small (rows : List DeviceStatsRow) : ∀ (cap idx : Nat) (acc : List DeviceStatsRow),
    idx ≤ cap → cap < idx + rows.length →
    writeAll cap rows idx acc =
      (XpumResult.bufferTooSmall, acc.reverse ++ rows.take (cap - idx), none) := by
  induction rows with
  | nil =>
    intro cap idx acc h1 h2
    exfalso
    simp at h2
    omega
  | cons r rest ih =>
    intro cap idx acc h1 h2
    by_cases hge : idx ≥ cap
    · have hz : cap - idx = 0 := by omega
      simp only [writeAll, if_pos hge, hz]
      simp
    · simp only [List.length_cons] at h2
      simp only [writeAll, if_neg hge]
      rw [ih cap (idx + 1) (r :: acc) (by omega) (by omega)]
      have hs : cap - idx = (cap - (idx + 1)) + 1 := by omega
      rw [hs]
      simp [List.reverse_cons, List.append_assoc]

theorem writeAll_mem (rows : List DeviceStatsRow) :
    ∀ (cap idx : Nat) (acc : List DeviceStatsRow) (r : DeviceStatsRow),
    r ∈ (writeAll cap rows idx acc).2.1 → r ∈ acc ∨ r ∈ rows := by
  induction rows with
  | nil =>
    intro cap idx acc r h
    simp [writeAll] at h
    exact Or.inl h
  | cons q rest ih =>
    intro cap idx acc r h
    by_cases hge : idx ≥ cap
    · simp only [writeAll, if_pos hge] at h
      simp at h
      exact Or.inl h
    · simp only [writeAll, if_neg hge] at h
      rcases ih cap (idx + 1) (q :: acc) r h with h1 | h1
      · rcases List.mem_cons.mp h1 with h2 | h2
        · exact Or.inr (by simp [h2])
        · exact Or.inl h2
      · exact Or.inr (List.mem_cons_of_mem _ h1)

/-- C1: `getMetricsStatistics` on a known device with N sub-devices: a
sizing call (null buffer) returns OK reporting N+1 required rows and writes
nothing; a call with exactly N+1 slots returns OK writing exactly N+1 rows;
a call with N slots returns `XPUM_BUFFER_TOO_SMALL` and never writes more
than the N supplied slots. -/
theorem claim_C1 (W : StatsWorld) (deviceId : Nat) (dev : DeviceInfo)
    (hdev : W.devices deviceId = some dev) :
    getMetricsStatistics W deviceId none =
      ⟨XpumResult.ok, [], some (dev.numSubdevice + 1), none, none⟩ ∧
    ((getMetricsStatistics W deviceId (some (dev.numSubdevice + 1))).result = XpumResult.ok ∧
      (getMetricsStatistics W deviceId (some (dev.numSubdevice + 1))).rows.length =
        dev.numSubdevice + 1 ∧
      (getMetricsStatistics W deviceId (some (dev.numSubdevice + 1))).countOut =
        some (dev.numSubdevice + 1)) ∧
    ((getMetricsStatistics W deviceId (some dev.numSubdevice)).result =
        XpumResult.bufferTooSmall ∧
      (getMetricsStatistics W deviceId (some dev.numSubdevice)).rows.length ≤
        dev.numSubdevice) := by
  have hlen : ∀ g : List (MeasurementType × StatsMD), ∀ b : Bool,
      ((⟨deviceId, 0, false, deviceRowData g b⟩ : DeviceStatsRow) ::
        (List.range dev.numSubdevice).map
          (fun i => (⟨deviceId, i, true, tileRowData g i⟩ : DeviceStatsRow))).length =
      dev.numSubdevice + 1 := by
    intro g b
    simp
  refine ⟨?_, ?_, ?_⟩
  · simp only [getMetricsStatistics, hdev]
  · simp only [getMetricsStatistics, hdev]
    rw [writeAll_ok _ (dev.numSubdevice + 1) 0 [] (by rw [hlen]; omega)]
    refine ⟨rfl, ?_, ?_⟩
    · simp
    · simp only [Option.some.injEq]
      rw [Nat.zero_add, hlen]
  · simp only [getMetricsStatistics, hdev]
    rw [writeAll_small _ dev.numSubdevice 0 [] (by omega) (by rw [hlen]; omega)]
    refine ⟨rfl, ?_⟩
    simp only [List.reverse_nil, List.nil_append, List.length_take, List.length_cons,
      List.length_map, List.length_range]
    omega

/-- C1 witness: a concrete device with one sub-device and one enabled,
capable metric: sizing reports 2 rows; capacity 2 yields OK with 2 rows;
capacity 1 yields buffer-too-small with at most 1 row. -/
theorem claim_C1_witness :
    getMetricsStatistics
      (StatsWorld.mk (fun i => if i = 0 then some (DeviceInfo.mk 1 [DeviceCapability.METRIC_POWER]) else none)
        [MeasurementType.METRIC_POWER] (fun _ _ => none) (fun _ => none)
        (StatsMD.mk false 1 0 0 0 0 0 []) 0 0) 0 none =
      ⟨XpumResult.ok, [], some 2, none, none⟩ ∧
    ((getMetricsStatistics
      (StatsWorld.mk (fun i => if i = 0 then some (DeviceInfo.mk 1 [DeviceCapability.METRIC_POWER]) else none)
        [MeasurementType.METRIC_POWER] (fun _ _ => none) (fun _ => none)
        (StatsMD.mk false 1 0 0 0 0 0 []) 0 0) 0 (some 2)).result = XpumResult.ok ∧
      (getMetricsStatistics
      (StatsWorld.mk (fun i => if i = 0 then some (DeviceInfo.mk 1 [DeviceCapability.METRIC_POWER]) else none)
        [MeasurementType.METRIC_POWER] (fun _ _ => none) (fun _ => none)
        (StatsMD.mk false 1 0 0 0 0 0 []) 0 0) 0 (some 2)).rows.length = 2 ∧
      (getMetricsStatistics
      (StatsWorld.mk (fun i => if i = 0 then some (DeviceInfo.mk 1 [DeviceCapability.METRIC_POWER]) else none)
        [MeasurementType.METRIC_POWER] (fun _ _ => none) (fun _ => none)
        (StatsMD.mk false 1 0 0 0 0 0 []) 0 0) 0 (some 2)).countOut = some 2) ∧
    ((getMetricsStatistics
      (StatsWorld.mk (fun i => if i = 0 then some (DeviceInfo.mk 1 [DeviceCapability.METRIC_POWER]) else none)
        [MeasurementType.METRIC_POWER] (fun _ _ => none) (fun _ => none)
        (StatsMD.mk false 1 0 0 0 0 0 []) 0 0) 0 (some 1)).result = XpumResult.bufferTooSmall ∧
      (getMetricsStatistics
      (StatsWorld.mk (fun i => if i = 0 then some (DeviceInfo.mk 1 [DeviceCapability.METRIC_POWER]) else none)
        [MeasurementType.METRIC_POWER] (fun _ _ => none) (fun _ => none)
        (StatsMD.mk false 1 0 0 0 0 0 []) 0 0) 0 (some 1)).rows.length ≤ 1) :=
  claim_C1
    (StatsWorld.mk (fun i => if i = 0 then some (DeviceInfo.mk 1 [DeviceCapability.METRIC_POWER]) else none)
      [MeasurementType.METRIC_POWER] (fun _ _ => none) (fun _ => none)
      (StatsMD.mk false 1 0 0 0 0 0 []) 0 0) 0
    (DeviceInfo.mk 1 [DeviceCapability.METRIC_POWER]) rfl

/-- A concrete world for the power-substitution claim: device 0 with no
sub-devices, power enabled and capable, the statistics store holding a
power sample with value 5, the latest store holding one with value 3, and
the idle-power probe reporting device-level data with value 7. -/
def W5 : StatsWorld :=
  StatsWorld.mk (fun i => if i = 0 then some (DeviceInfo.mk 0 [DeviceCapability.METRIC_POWER]) else none)
    [MeasurementType.METRIC_POWER]
    (fun t _ => if t = MeasurementType.METRIC_POWER then
      some (StatsMD.mk true 1 5 5 5 5 0 []) else none)
    (fun t => if t = MeasurementType.METRIC_POWER then
      some (StatsMD.mk true 1 3 3 3 3 5 []) else none)
    (StatsMD.mk true 1 7 7 7 7 9 []) 0 0

/-- C5 counterexample: in `getLatestMetrics` (the snapshot assembly) the
idle-power probe reports device-level data (value 7), yet the emitted power
row carries the regular latest sample's value 3: the substitution branch is
guarded by the comma expression `(…, false)` of line 248 and never fires. -/
theorem claim_C5_counterexample :
    W5.pvcIdlePower.hasDataOnDevice = true ∧
    (getLatestMetrics W5 0 true).rows =
      [DeviceMetricsRow.mk 0 0 false
        [MetricRowData.mk MeasurementType.METRIC_POWER false 3 5 1]] ∧
    W5.pvcIdlePower.current = 7 ∧ (3 : Nat) ≠ 7 :=
  ⟨by decide, by decide, by decide, by decide⟩

/-- C5 as amended: in `getMetricsStatistics` (statistics assembly) the
idle-power sample is substituted for the power metric whenever the probe
reports device-level data; in `getLatestMetrics` (snapshot assembly) the
substitution branch is dead — the comma expression of line 248 always
yields false — and the regular latest sample is always used. -/
theorem claim_C5_amended :
    (∀ (W : StatsWorld), W.pvcIdlePower.hasDataOnDevice = true →
      gatherOne W MeasurementType.METRIC_POWER =
        some (MeasurementType.METRIC_POWER, W.pvcIdlePower)) ∧
    (∀ (W : StatsWorld) (dev : DeviceInfo), W.pvcIdlePower.hasDataOnDevice = true →
      MeasurementType.METRIC_POWER ∈ filteredMetrics W.enabledMetrics dev.capabilities →
      (MeasurementType.METRIC_POWER, W.pvcIdlePower) ∈ gatherStats W dev) ∧
    (∀ (W : StatsWorld),
      latestOne W MeasurementType.METRIC_POWER =
        (W.latestStore MeasurementType.METRIC_POWER).map
          (fun md => (MeasurementType.METRIC_POWER, md))) := by
  have hA : ∀ (W : StatsWorld), W.pvcIdlePower.hasDataOnDevice = true →
      gatherOne W MeasurementType.METRIC_POWER =
        some (MeasurementType.METRIC_POWER, W.pvcIdlePower) := by
    intro W h
    simp [gatherOne, h]
  refine ⟨hA, ?_, ?_⟩
  · intro W dev h hmem
    exact List.mem_filterMap.mpr ⟨MeasurementType.METRIC_POWER, hmem, hA W h⟩
  · intro W
    simp [latestOne, commaExpr]

/-- C5 witness: on the concrete world `W5`, statistics gathering takes the
idle-power sample for the power metric (and it reaches `m_datas`), while
snapshot gathering takes the latest store's sample. -/
theorem claim_C5_witness :
    gatherOne W5 MeasurementType.METRIC_POWER =
      some (MeasurementType.METRIC_POWER, W5.pvcIdlePower) ∧
    (MeasurementType.METRIC_POWER, W5.pvcIdlePower) ∈
      gatherStats W5 (DeviceInfo.mk 0 [DeviceCapability.METRIC_POWER]) ∧
    latestOne W5 MeasurementType.METRIC_POWER =
      (W5.latestStore MeasurementType.METRIC_POWER).map
        (fun md => (MeasurementType.METRIC_POWER, md)) :=
  ⟨claim_C5_amended.1 W5 (by decide),
   claim_C5_amended.2.1 W5 (DeviceInfo.mk 0 [DeviceCapability.METRIC_POWER])
     (by decide) (by decide),
   claim_C5_amended.2.2 W5⟩

/-- If the store has no data at any elapsed second up to 30, the retry loop
gives up with no data. -/
theorem retryLoop_none (store : Nat → Option StatsMD) :
    ∀ (n t : Nat), 31 - t ≤ n → (∀ k, k ≤ 30 → store k = none) →
    retryLoop store t = none := by
  intro n
  induction n with
  | zero =>
    intro t h _
    rw [retryLoop, dif_neg (by omega : ¬ t ≤ 30)]
  | succ n ih =>
    intro t h hnone
    rw [retryLoop]
    by_cases ht : t ≤ 30
    · rw [dif_pos ht, hnone t ht]
      exact ih (t + 1) (by omega) hnone
    · rw [dif_neg ht]

/-- If the store first has data at second `k ≤ 30`, the retry loop returns
exactly that datum. -/
theorem retryLoop_finds (store : Nat → Option StatsMD) :
    ∀ (n t k : Nat) (d : StatsMD), 31 - t ≤ n → t ≤ k → k ≤ 30 →
    (∀ j, t ≤ j → j < k → store j = none) → store k = some d →
    retryLoop store t = some d := by
  intro n
  induction n with
  | zero =>
    intro t k d hn htk hk _ _
    exfalso
    omega
  | succ n ih =>
    intro t k d hn htk hk hnone hsome
    rw [retryLoop, dif_pos (by omega : t ≤ 30)]
    by_cases hek : t = k
    · subst hek
      rw [hsome]
    · rw [hnone t le_rfl (by omega)]
      exact ih (t + 1) k d (by omega) (by omega) hk
        (fun j hj1 hj2 => hnone j (by omega) hj2) hsome

/-- C8: in the statistics gathering of `getStatistics`, a sparse metric
(RAS error categories, EU active/stall/idle) with no stored data is
re-queried once per elapsed second for up to 30 seconds: it yields the
datum first present at some second `k ≤ 30`, and yields no data when the
store stays empty through second 30; a non-sparse metric's outcome is the
initial query alone — no retry occurs. -/
theorem claim_C8 :
    (∀ (store : Nat → Option StatsMD) (t : MeasurementType), isSparseMetric t = true →
      (∀ k, k ≤ 30 → store k = none) →
      queryWithRetry (isSparseMetric t) store = none) ∧
    (∀ (store : Nat → Option StatsMD) (t : MeasurementType) (k : Nat) (d : StatsMD),
      isSparseMetric t = true → k ≤ 30 → (∀ j, j < k → store j = none) →
      store k = some d → queryWithRetry (isSparseMetric t) store = some d) ∧
    (∀ (store : Nat → Option StatsMD) (t : MeasurementType), isSparseMetric t = false →
      queryWithRetry (isSparseMetric t) store = store 0) ∧
    (∀ (W : StatsWorld) (t : MeasurementType), isSparseMetric t = true →
      (∀ k, k ≤ 30 → W.statsStore t k = none) → gatherOne W t = none) ∧
    (∀ (W : StatsWorld) (t : MeasurementType) (k : Nat) (d : StatsMD),
      isSparseMetric t = true → k ≤ 30 → (∀ j, j < k → W.statsStore t j = none) →
      W.statsStore t k = some d → gatherOne W t = some (t, d)) := by
  have hA : ∀ (store : Nat → Option StatsMD) (t : MeasurementType), isSparseMetric t = true →
      (∀ k, k ≤ 30 → store k = none) →
      queryWithRetry (isSparseMetric t) store = none := by
    intro store t hsp hnone
    simp only [queryWithRetry, hnone 0 (by omega), hsp, if_pos]
    exact retryLoop_none store 31 0 (by omega) hnone
  have hB : ∀ (store : Nat → Option StatsMD) (t : MeasurementType) (k : Nat) (d : StatsMD),
      isSparseMetric t = true → k ≤ 30 → (∀ j, j < k → store j = none) →
      store k = some d → queryWithRetry (isSparseMetric t) store = some d := by
    intro store t k d hsp hk hnone hsome
    cases k with
    | zero =>
      simp only [queryWithRetry, hsome]
    | succ k' =>
      simp only [queryWithRetry, hnone 0 (by omega), hsp, if_pos]
      exact retryLoop_finds store 31 0 (k' + 1) d (by omega) (by omega) hk
        (fun j _ hj2 => hnone j hj2) hsome
  have hskip : ∀ (t : MeasurementType), isSparseMetric t = true →
      ¬(t = MeasurementType.METRIC_ENGINE_UTILIZATION ∨
        t = MeasurementType.METRIC_FABRIC_THROUGHPUT) := by decide
  have hpow : ∀ (t : MeasurementType), isSparseMetric t = true →
      t ≠ MeasurementType.METRIC_POWER := by decide
  refine ⟨hA, hB, ?_, ?_, ?_⟩
  · intro store t hsp
    cases h0 : store 0 <;> simp [queryWithRetry, hsp, h0]
  · intro W t hsp hnone
    have hnp : ¬(t = MeasurementType.METRIC_POWER ∧
        W.pvcIdlePower.hasDataOnDevice = true) := by
      intro hc
      exact hpow t hsp hc.1
    simp only [gatherOne, if_neg (hskip t hsp), if_neg hnp]
    rw [hA (W.statsStore t) t hsp hnone]
  · intro W t k d hsp hk hnone hsome
    have hnp : ¬(t = MeasurementType.METRIC_POWER ∧
        W.pvcIdlePower.hasDataOnDevice = true) := by
      intro hc
      exact hpow t hsp hc.1
    simp only [gatherOne, if_neg (hskip t hsp), if_neg hnp]
    rw [hB (W.statsStore t) t k d hsp hk hnone hsome]

/-- C8 witness: with a store empty through second 30 the RAS-reset query
gives up empty; with data first present at second 3 it returns that datum
after retrying; a non-sparse metric (temperature) whose store would have
data from second 1 still returns the initial empty query. -/
theorem claim_C8_witness :
    queryWithRetry (isSparseMetric MeasurementType.METRIC_RAS_ERROR_CAT_RESET)
      (fun _ => none) = none ∧
    queryWithRetry (isSparseMetric MeasurementType.METRIC_RAS_ERROR_CAT_RESET)
      (fun t => if t < 3 then none else some (StatsMD.mk true 1 4 4 4 4 0 [])) =
      some (StatsMD.mk true 1 4 4 4 4 0 []) ∧
    queryWithRetry (isSparseMetric MeasurementType.METRIC_TEMPERATURE)
      (fun t => if t < 1 then none else some (StatsMD.mk true 1 4 4 4 4 0 [])) =
      (fun t => if t < 1 then none else some (StatsMD.mk true 1 4 4 4 4 0 [])) 0 ∧
    gatherOne
      (StatsWorld.mk (fun _ => none) [] (fun _ _ => none) (fun _ => none)
        (StatsMD.mk false 1 0 0 0 0 0 []) 0 0)
      MeasurementType.METRIC_RAS_ERROR_CAT_RESET = none :=
  ⟨claim_C8.1 (fun _ => none) MeasurementType.METRIC_RAS_ERROR_CAT_RESET rfl
     (fun _ _ => rfl),
   claim_C8.2.1 (fun t => if t < 3 then none else some (StatsMD.mk true 1 4 4 4 4 0 []))
     MeasurementType.METRIC_RAS_ERROR_CAT_RESET 3 (StatsMD.mk true 1 4 4 4 4 0 [])
     rfl (by omega) (fun j hj => by simp [hj]) (by simp),
   claim_C8.2.2.1 (fun t => if t < 1 then none else some (StatsMD.mk true 1 4 4 4 4 0 []))
     MeasurementType.METRIC_TEMPERATURE rfl,
   claim_C8.2.2.2.1
     (StatsWorld.mk (fun _ => none) [] (fun _ _ => none) (fun _ => none)
       (StatsMD.mk false 1 0 0 0 0 0 []) 0 0)
     MeasurementType.METRIC_RAS_ERROR_CAT_RESET rfl (fun _ _ => rfl)⟩

/-- C10: in `getEngineStatistics` a missing device is reported first on
every call; a sizing call (null buffer) on a known device returns OK with
the device's engine count before the metric-enabled and capability checks
run — with no hypothesis about configuration or capabilities — so
`XPUM_METRIC_NOT_ENABLED` and `XPUM_METRIC_NOT_SUPPORTED` can never come
out of a sizing call. -/
theorem claim_C10 :
    (∀ (W : EngineWorld) (deviceId : Nat) (dataList : Option Nat),
      W.devices deviceId = none →
      (getEngineStatistics W deviceId dataList).result = XpumResult.deviceNotFound) ∧
    (∀ (W : EngineWorld) (deviceId : Nat) (dev : EngineDeviceInfo),
      W.devices deviceId = some dev →
      getEngineStatistics W deviceId none =
        ⟨XpumResult.ok, [], some dev.engineCount, none, none⟩) ∧
    (∀ (W : EngineWorld) (deviceId : Nat),
      (getEngineStatistics W deviceId none).result ≠ XpumResult.metricNotEnabled ∧
      (getEngineStatistics W deviceId none).result ≠ XpumResult.metricNotSupported) := by
  have hB : ∀ (W : EngineWorld) (deviceId : Nat) (dev : EngineDeviceInfo),
      W.devices deviceId = some dev →
      getEngineStatistics W deviceId none =
        ⟨XpumResult.ok, [], some dev.engineCount, none, none⟩ := by
    intro W deviceId dev hdev
    simp only [getEngineStatistics, hdev]
  refine ⟨?_, hB, ?_⟩
  · intro W deviceId dataList hdev
    simp only [getEngineStatistics, hdev]
  · intro W deviceId
    cases hdev : W.devices deviceId with
    | none =>
      constructor <;> simp [getEngineStatistics, hdev]
    | some dev =>
      rw [hB W deviceId dev hdev]
      exact ⟨by simp, by simp⟩

/-- C10 witness: on a world whose only device has 4 engines and where the
engine metric is neither enabled nor capable, a wrong id gives
device-not-found, and the sizing call still returns OK with count 4. -/
theorem claim_C10_witness :
    (getEngineStatistics
      (EngineWorld.mk (fun i => if i = 0 then some (EngineDeviceInfo.mk 4 []) else none)
        [] none (fun _ => 0) (fun _ => 0) 0 0) 1 (some 3)).result =
      XpumResult.deviceNotFound ∧
    getEngineStatistics
      (EngineWorld.mk (fun i => if i = 0 then some (EngineDeviceInfo.mk 4 []) else none)
        [] none (fun _ => 0) (fun _ => 0) 0 0) 0 none =
      ⟨XpumResult.ok, [], some 4, none, none⟩ ∧
    ((getEngineStatistics
      (EngineWorld.mk (fun i => if i = 0 then some (EngineDeviceInfo.mk 4 []) else none)
        [] none (fun _ => 0) (fun _ => 0) 0 0) 0 none).result ≠ XpumResult.metricNotEnabled ∧
     (getEngineStatistics
      (EngineWorld.mk (fun i => if i = 0 then some (EngineDeviceInfo.mk 4 []) else none)
        [] none (fun _ => 0) (fun _ => 0) 0 0) 0 none).result ≠ XpumResult.metricNotSupported) :=
  ⟨claim_C10.1
    (EngineWorld.mk (fun i => if i = 0 then some (EngineDeviceInfo.mk 4 []) else none)
      [] none (fun _ => 0) (fun _ => 0) 0 0) 1 (some 3) (by decide),
   claim_C10.2.1
    (EngineWorld.mk (fun i => if i = 0 then some (EngineDeviceInfo.mk 4 []) else none)
      [] none (fun _ => 0) (fun _ => 0) 0 0) 0 (EngineDeviceInfo.mk 4 []) (by decide),
   claim_C10.2.2
    (EngineWorld.mk (fun i => if i = 0 then some (EngineDeviceInfo.mk 4 []) else none)
      [] none (fun _ => 0) (fun _ => 0) 0 0) 0⟩

theorem mem_filteredMetrics {t : MeasurementType} {enabled : List MeasurementType}
    {caps : List DeviceCapability} (h1 : t ∈ enabled)
    (h2 : capabilityFromMeasurementType t ∈ caps) : t ∈ filteredMetrics enabled caps :=
  List.mem_filter.mpr ⟨h1, decide_eq_true h2⟩

/-- When the capacity covers every resolvable entry, the engine loop
returns OK, writes exactly the rows of the resolvable entries (entries with
an unresolved engine index or a sentinel value are skipped), and reports
their number. -/
theorem engineLoop_ok (W : EngineWorld) (deviceId scale : Nat)
    (l : List (Nat × EngineEntity)) : ∀ (cap idx : Nat) (acc : List EngineStatsRow),
    idx + (l.filter (fun p =>
      decide (W.engineIndexOf p.1 ≠ U32MAX ∧ p.2.current ≠ U64MAX))).length ≤ cap →
    engineLoop W deviceId scale cap l idx acc =
      (XpumResult.ok,
       acc.reverse ++ l.filterMap (fun p =>
         if W.engineIndexOf p.1 ≠ U32MAX ∧ p.2.current ≠ U64MAX
         then some (mkEngineRow W deviceId scale p.1 p.2) else none),
       some (idx + (l.filter (fun p =>
         decide (W.engineIndexOf p.1 ≠ U32MAX ∧ p.2.current ≠ U64MAX))).length)) := by
  induction l with
  | nil =>
    intro cap idx acc _
    simp [engineLoop]
  | cons q rest ih =>
    obtain ⟨h, ent⟩ := q
    intro cap idx acc hle
    by_cases hc : W.engineIndexOf h ≠ U32MAX ∧ ent.current ≠ U64MAX
    · simp only [List.filter_cons, decide_eq_true hc, if_pos, List.length_cons] at hle ⊢
      have hlt : ¬ idx ≥ cap := by omega
      simp only [engineLoop, if_pos hc, if_neg hlt]
      rw [ih cap (idx + 1) (mkEngineRow W deviceId scale h ent :: acc) (by omega)]
      simp [hc, List.reverse_cons, List.append_assoc]
      omega
    · simp only [List.filter_cons] at hle
      rw [decide_eq_false hc] at hle
      simp only [Bool.false_eq_true, if_neg] at hle
      simp only [engineLoop, if_neg hc]
      rw [ih cap idx acc (by simpa using hle)]
      simp [hc]

/-- An entry whose remote fabric id resolves to no device makes the fabric
statistics loop return the hard generic error. -/
theorem fabricStatsLoop_bad (W : FabricWorld) (deviceId scale : Nat)
    (l : List (Nat × FabricEntity)) : ∀ (acc : List FabricStatsRow) (fid : Nat)
    (m : FabricEntity) (info : FabricInfo),
    (fid, m) ∈ l → W.fabricInfoOf fid = some info →
    W.deviceIdByFabricId info.remote_fabric_id = none →
    (fabricStatsLoop W deviceId scale l acc).1 = XpumResult.genericError := by
  induction l with
  | nil =>
    intro _ _ _ _ hm
    cases hm
  | cons q rest ih =>
    obtain ⟨f0, m0⟩ := q
    intro acc fid m info hm hinfo hrid
    rcases List.mem_cons.mp hm with hh | ht
    · injection hh with h1 h2
      subst h1
      subst h2
      simp only [fabricStatsLoop, hinfo, hrid]
    · cases h0 : W.fabricInfoOf f0 with
      | none =>
        simp only [fabricStatsLoop, h0]
        exact ih acc fid m info ht hinfo hrid
      | some info0 =>
        cases hr0 : W.deviceIdByFabricId info0.remote_fabric_id with
        | none => simp only [fabricStatsLoop, h0, hr0]
        | some rid0 =>
          simp only [fabricStatsLoop, h0, hr0]
          exact ih _ fid m info ht hinfo hrid

/-- Same for the fabric snapshot loop, provided the capacity covers the
entries walked before the failing one. -/
theorem fabricMetricLoop_bad (W : FabricWorld) (deviceId scale : Nat)
    (l : List (Nat × FabricEntity)) : ∀ (cap idx : Nat) (acc : List FabricMetricRow)
    (fid : Nat) (m : FabricEntity) (info : FabricInfo),
    idx + l.length ≤ cap →
    (fid, m) ∈ l → W.fabricInfoOf fid = some info →
    W.deviceIdByFabricId info.remote_fabric_id = none →
    (fabricMetricLoop W deviceId scale cap l idx acc).1 = XpumResult.genericError := by
  induction l with
  | nil =>
    intro _ _ _ _ _ _ _ hm
    cases hm
  | cons q rest ih =>
    obtain ⟨f0, m0⟩ := q
    intro cap idx acc fid m info hcap hm hinfo hrid
    simp only [List.length_cons] at hcap
    rcases List.mem_cons.mp hm with hh | ht
    · injection hh with h1 h2
      subst h1
      subst h2
      simp only [fabricMetricLoop, hinfo, hrid]
    · cases h0 : W.fabricInfoOf f0 with
      | none =>
        simp only [fabricMetricLoop, h0]
        exact ih cap idx acc fid m info (by omega) ht hinfo hrid
      | some info0 =>
        cases hr0 : W.deviceIdByFabricId info0.remote_fabric_id with
        | none => simp only [fabricMetricLoop, h0, hr0]
        | some rid0 =>
          have hlt : ¬ idx ≥ cap := by omega
          simp only [fabricMetricLoop, h0, hr0, if_neg hlt]
          exact ih cap (idx + 1) _ fid m info (by omega) ht hinfo hrid

/-- C7: the engine assembler silently skips entries whose engine index is
unresolved or whose value is the no-data sentinel and still returns OK
with exactly the resolvable rows, while in both fabric assemblers a single
entry whose remote fabric identity resolves to no device id makes the
whole call return the hard `XPUM_GENERIC_ERROR`. -/
theorem claim_C7 :
    (∀ (W : EngineWorld) (deviceId cap : Nat) (dev : EngineDeviceInfo) (md : EngineMD),
      W.devices deviceId = some dev →
      MeasurementType.METRIC_ENGINE_UTILIZATION ∈ W.enabledMetrics →
      DeviceCapability.METRIC_ENGINE_UTILIZATION ∈ dev.capabilities →
      W.engineStats = some md →
      (md.entities.filter (fun p =>
        decide (W.engineIndexOf p.1 ≠ U32MAX ∧ p.2.current ≠ U64MAX))).length ≤ cap →
      getEngineStatistics W deviceId (some cap) =
        ⟨XpumResult.ok,
         md.entities.filterMap (fun p =>
           if W.engineIndexOf p.1 ≠ U32MAX ∧ p.2.current ≠ U64MAX
           then some (mkEngineRow W deviceId md.scale p.1 p.2) else none),
         some ((md.entities.filter (fun p =>
           decide (W.engineIndexOf p.1 ≠ U32MAX ∧ p.2.current ≠ U64MAX))).length),
         some W.beginTs, some W.nowTs⟩) ∧
    (∀ (W : FabricWorld) (deviceId cap : Nat) (dev : FabricDeviceInfo) (md : FabricMD)
        (fid : Nat) (m : FabricEntity) (info : FabricInfo),
      W.devices deviceId = some dev →
      MeasurementType.METRIC_FABRIC_THROUGHPUT ∈ W.enabledMetrics →
      DeviceCapability.METRIC_FABRIC_THROUGHPUT ∈ dev.capabilities →
      ¬ dev.fabricInfoCount = 0 →
      W.fabricStats = some md →
      (md.entities.filter (fun p => (W.fabricInfoOf p.1).isSome)).length ≤ cap →
      ¬ md.timestamp < W.beginTs →
      (fid, m) ∈ md.entities →
      W.fabricInfoOf fid = some info →
      W.deviceIdByFabricId info.remote_fabric_id = none →
      (getFabricThroughputStatistics W deviceId (some cap)).result =
        XpumResult.genericError) ∧
    (∀ (W : FabricWorld) (deviceId cap : Nat) (dev : FabricDeviceInfo) (md : FabricMD)
        (fid : Nat) (m : FabricEntity) (info : FabricInfo),
      W.devices deviceId = some dev →
      MeasurementType.METRIC_FABRIC_THROUGHPUT ∈ W.enabledMetrics →
      DeviceCapability.METRIC_FABRIC_THROUGHPUT ∈ dev.capabilities →
      ¬ cap = 0 →
      W.fabricLatest = some md →
      md.entities.length ≤ cap →
      (fid, m) ∈ md.entities →
      W.fabricInfoOf fid = some info →
      W.deviceIdByFabricId info.remote_fabric_id = none →
      (getFabricThroughput W deviceId (some cap)).result = XpumResult.genericError) := by
  refine ⟨?_, ?_, ?_⟩
  · intro W deviceId cap dev md hdev hen hcap hmd hle
    have hmf : MeasurementType.METRIC_ENGINE_UTILIZATION ∈
        filteredMetrics W.enabledMetrics dev.capabilities := mem_filteredMetrics hen hcap
    simp only [getEngineStatistics, hdev]
    rw [if_neg (not_not_intro hen), if_neg (not_not_intro hmf)]
    simp only [hmd]
    rw [engineLoop_ok W deviceId md.scale md.entities cap 0 [] (by omega)]
    simp
  · intro W deviceId cap dev md fid m info hdev hen hcap htc hmd hle hts hmem hinfo hrid
    have hmf : MeasurementType.METRIC_FABRIC_THROUGHPUT ∈
        filteredMetrics W.enabledMetrics dev.capabilities := mem_filteredMetrics hen hcap
    simp only [getFabricThroughputStatistics, hdev]
    rw [if_neg (not_not_intro hen), if_neg (not_not_intro hmf), if_neg htc]
    simp only [hmd]
    rw [if_neg (not_lt.mpr hle), if_neg hts]
    have hbad := fabricStatsLoop_bad W deviceId md.scale md.entities [] fid m info
      hmem hinfo hrid
    rw [if_neg (show ¬ (fabricStatsLoop W deviceId md.scale md.entities []).1 =
        XpumResult.ok from by rw [hbad]; simp)]
    exact hbad
  · intro W deviceId cap dev md fid m info hdev hen hcap hcz hmd hlen hmem hinfo hrid
    have hmf : MeasurementType.METRIC_FABRIC_THROUGHPUT ∈
        filteredMetrics W.enabledMetrics dev.capabilities := mem_filteredMetrics hen hcap
    simp only [getFabricThroughput, hdev]
    rw [if_neg (not_not_intro hen), if_neg (not_not_intro hmf), if_neg hcz]
    simp only [hmd]
    exact fabricMetricLoop_bad W deviceId md.scale md.entities cap 0 [] fid m info
      (by omega) hmem hinfo hrid

/-- A concrete engine sample: handle 1 resolves to index 0, handle 2 is
unresolved, handle 3 carries the no-data sentinel. -/
def md7 : EngineMD :=
  EngineMD.mk 100 [(1, EngineEntity.mk false 0 50 1 90 40),
    (2, EngineEntity.mk false 0 50 1 90 40), (3, EngineEntity.mk true 1 U64MAX 0 0 0)]

/-- A concrete engine world for the C7 witness. -/
def W7e : EngineWorld :=
  EngineWorld.mk
    (fun i => if i = 0 then
      some (EngineDeviceInfo.mk 3 [DeviceCapability.METRIC_ENGINE_UTILIZATION]) else none)
    [MeasurementType.METRIC_ENGINE_UTILIZATION] (some md7)
    (fun h => if h = 1 then 0 else if h = 2 then U32MAX else 1) (fun _ => 0) 0 0

/-- A concrete fabric entity and link record whose remote fabric id 9
resolves to no device. -/
def m7 : FabricEntity := FabricEntity.mk 5 1 9 3

/-- The topology record of the C7 fabric witness. -/
def info7 : FabricInfo := FabricInfo.mk 0 9 1 FabricThroughputType.TRANSMITTED_COUNTER

/-- The fabric sample of the C7 witness. -/
def md7f : FabricMD := FabricMD.mk 20 10 [(4, m7)]

/-- A concrete fabric world for the C7 witness. -/
def W7f : FabricWorld :=
  FabricWorld.mk
    (fun i => if i = 0 then
      some (FabricDeviceInfo.mk 1 [DeviceCapability.METRIC_FABRIC_THROUGHPUT]) else none)
    [MeasurementType.METRIC_FABRIC_THROUGHPUT] (some md7f) (some md7f)
    (fun fid => if fid = 4 then some info7 else none) (fun _ => none) 0 0

/-- C7 witness: the engine call returns OK with exactly the resolvable
rows despite the unresolved and sentinel entries; both fabric calls return
the hard generic error on the unresolvable remote. -/
theorem claim_C7_witness :
    getEngineStatistics W7e 0 (some 3) =
      ⟨XpumResult.ok,
       md7.entities.filterMap (fun p =>
         if W7e.engineIndexOf p.1 ≠ U32MAX ∧ p.2.current ≠ U64MAX
         then some (mkEngineRow W7e 0 md7.scale p.1 p.2) else none),
       some ((md7.entities.filter (fun p =>
         decide (W7e.engineIndexOf p.1 ≠ U32MAX ∧ p.2.current ≠ U64MAX))).length),
       some W7e.beginTs, some W7e.nowTs⟩ ∧
    (getFabricThroughputStatistics W7f 0 (some 5)).result = XpumResult.genericError ∧
    (getFabricThroughput W7f 0 (some 5)).result = XpumResult.genericError :=
  ⟨claim_C7.1 W7e 0 3 (EngineDeviceInfo.mk 3 [DeviceCapability.METRIC_ENGINE_UTILIZATION])
     md7 rfl (by decide) (by decide) rfl (by decide),
   claim_C7.2.1 W7f 0 5 (FabricDeviceInfo.mk 1 [DeviceCapability.METRIC_FABRIC_THROUGHPUT])
     md7f 4 m7 info7 rfl (by decide) (by decide) (by decide) rfl (by decide) (by decide)
     (by decide) rfl rfl,
   claim_C7.2.2 W7f 0 5 (FabricDeviceInfo.mk 1 [DeviceCapability.METRIC_FABRIC_THROUGHPUT])
     md7f 4 m7 info7 rfl (by decide) (by decide) (by decide) rfl (by decide) (by decide)
     rfl rfl⟩

theorem deviceRowData_mem {g : List (MeasurementType × StatsMD)} {b : Bool}
    {rd : StatsRowData} (h : rd ∈ deviceRowData g b) :
    ∃ t md, (t, md) ∈ g ∧ md.hasDataOnDevice = true ∧ rd = mkStatsData t md := by
  unfold deviceRowData at h
  split at h
  · rcases List.mem_filterMap.mp h with ⟨p, hp, hf⟩
    split at hf
    · injection hf with hf
      exact ⟨p.1, p.2, hp, by assumption, hf.symm⟩
    · cases hf
  · cases h

theorem tileRowData_mem {g : List (MeasurementType × StatsMD)} {i : Nat}
    {rd : StatsRowData} (h : rd ∈ tileRowData g i) :
    ∃ t md s, (t, md) ∈ g ∧ alookup i md.sub = some s ∧ s.current ≠ U64MAX ∧
      rd = mkSubStatsData t md s := by
  rcases List.mem_filterMap.mp h with ⟨p, hp, hf⟩
  split at hf
  · cases hf
  · split at hf
    · cases hf
    · split at hf
      · injection hf with hf
        exact ⟨p.1, p.2, _, hp, by assumption, by assumption, hf.symm⟩
      · cases hf

theorem mkStatsData_spec (t : MeasurementType) (md : StatsMD) :
    (mkStatsData t md).metricsType = t ∧
    (mkStatsData t md).isCounter = isCounterMetric t ∧
    (mkStatsData t md).scale = md.scale ∧
    (isCounterMetric t = true → (mkStatsData t md).accumulated = md.current ∧
      (mkStatsData t md).value = sub64 md.current md.min) ∧
    (isCounterMetric t = false → (mkStatsData t md).value = md.current ∧
      (mkStatsData t md).min = md.min ∧ (mkStatsData t md).max = md.max ∧
      (mkStatsData t md).avg = md.avg) := by
  by_cases hc : isCounterMetric t = true
  · simp [mkStatsData, hc]
  · simp only [Bool.not_eq_true] at hc
    simp [mkStatsData, hc]

theorem mkSubStatsData_spec (t : MeasurementType) (md : StatsMD) (s : SubStats) :
    (mkSubStatsData t md s).metricsType = t ∧
    (mkSubStatsData t md s).isCounter = isCounterMetric t ∧
    (mkSubStatsData t md s).scale = md.scale ∧
    (isCounterMetric t = true → (mkSubStatsData t md s).accumulated = s.current ∧
      (mkSubStatsData t md s).value = sub64 s.current s.min) ∧
    (isCounterMetric t = false → (mkSubStatsData t md s).value = s.current ∧
      (mkSubStatsData t md s).min = s.min ∧ (mkSubStatsData t md s).max = s.max ∧
      (mkSubStatsData t md s).avg = s.avg) := by
  by_cases hc : isCounterMetric t = true
  · simp [mkSubStatsData, hc]
  · simp only [Bool.not_eq_true] at hc
    simp [mkSubStatsData, hc]

theorem mkFabricStatsRow_spec (deviceId scale : Nat) (info : FabricInfo) (rid : Nat)
    (m : FabricEntity) :
    (mkFabricStatsRow deviceId scale info rid m).ftype = info.ftype ∧
    ((info.ftype = FabricThroughputType.TRANSMITTED_COUNTER ∨
      info.ftype = FabricThroughputType.RECEIVED_COUNTER) →
      (mkFabricStatsRow deviceId scale info rid m).value = sub64 m.current m.min ∧
      (mkFabricStatsRow deviceId scale info rid m).accumulated = m.current ∧
      (mkFabricStatsRow deviceId scale info rid m).scale = 1) ∧
    (¬(info.ftype = FabricThroughputType.TRANSMITTED_COUNTER ∨
      info.ftype = FabricThroughputType.RECEIVED_COUNTER) →
      (mkFabricStatsRow deviceId scale info rid m).value = m.current ∧
      (mkFabricStatsRow deviceId scale info rid m).min = m.min ∧
      (mkFabricStatsRow deviceId scale info rid m).avg = m.avg ∧
      (mkFabricStatsRow deviceId scale info rid m).max = m.max ∧
      (mkFabricStatsRow deviceId scale info rid m).scale = scale) := by
  by_cases hc : info.ftype = FabricThroughputType.TRANSMITTED_COUNTER ∨
      info.ftype = FabricThroughputType.RECEIVED_COUNTER
  · simp [mkFabricStatsRow, hc]
  · simp [mkFabricStatsRow, hc]

/-- Every row produced by the fabric statistics loop is built from an entry
of the walked list with resolvable topology info and remote device. -/
theorem fabricStatsLoop_mem (W : FabricWorld) (deviceId scale : Nat)
    (l : List (Nat × FabricEntity)) : ∀ (acc : List FabricStatsRow) (st : FabricStatsRow),
    st ∈ (fabricStatsLoop W deviceId scale l acc).2 →
    st ∈ acc ∨ ∃ fid m info rid, (fid, m) ∈ l ∧ W.fabricInfoOf fid = some info ∧
      W.deviceIdByFabricId info.remote_fabric_id = some rid ∧
      st = mkFabricStatsRow deviceId scale info rid m := by
  induction l with
  | nil =>
    intro acc st h
    simp [fabricStatsLoop] at h
    exact Or.inl h
  | cons q rest ih =>
    obtain ⟨f0, m0⟩ := q
    intro acc st h
    cases h0 : W.fabricInfoOf f0 with
    | none =>
      simp only [fabricStatsLoop, h0] at h
      rcases ih acc st h with h1 | ⟨fid, m, info, rid, hm, hi, hr, he⟩
      · exact Or.inl h1
      · exact Or.inr ⟨fid, m, info, rid, List.mem_cons_of_mem _ hm, hi, hr, he⟩
    | some info0 =>
      cases hr0 : W.deviceIdByFabricId info0.remote_fabric_id with
      | none =>
        simp only [fabricStatsLoop, h0, hr0] at h
        simp at h
        exact Or.inl h
      | some rid0 =>
        simp only [fabricStatsLoop, h0, hr0] at h
        rcases ih _ st h with h1 | ⟨fid, m, info, rid, hm, hi, hr, he⟩
        · rcases List.mem_cons.mp h1 with h2 | h2
          · exact Or.inr ⟨f0, m0, info0, rid0, List.mem_cons_self _ _, h0, hr0, h2⟩
          · exact Or.inl h2
        · exact Or.inr ⟨fid, m, info, rid, List.mem_cons_of_mem _ hm, hi, hr, he⟩

/-- C6: every emitted statistics row datum of `getMetricsStatistics` comes
from a gathered sample and carries, for a counter-tagged metric,
`accumulated = current` and `value = current - min` (uint64 subtraction),
and for a gauge-tagged metric the sample's current/min/max/avg, always at
the sample's scale (device-level rows read the device-level statistics,
tile rows the tile's slice); and every row of
`getFabricThroughputStatistics` comes from a resolvable fabric entry and
carries, for the counter types (transmitted/received totals),
`value = current - min`, `accumulated = current` at fixed scale 1, and for
the gauge types full current/min/avg/max at the sample's own scale. -/
theorem claim_C6 :
    (∀ (W : StatsWorld) (deviceId cap : Nat) (row : DeviceStatsRow) (rd : StatsRowData),
      row ∈ (getMetricsStatistics W deviceId (some cap)).rows → rd ∈ row.data →
      ∃ dev md, W.devices deviceId = some dev ∧
        (rd.metricsType, md) ∈ gatherStats W dev ∧
        rd.scale = md.scale ∧
        (row.isTileData = false →
          rd.isCounter = isCounterMetric rd.metricsType ∧
          (isCounterMetric rd.metricsType = true →
            rd.accumulated = md.current ∧ rd.value = sub64 md.current md.min) ∧
          (isCounterMetric rd.metricsType = false →
            rd.value = md.current ∧ rd.min = md.min ∧ rd.max = md.max ∧
            rd.avg = md.avg)) ∧
        (row.isTileData = true → ∃ s, alookup row.tileId md.sub = some s ∧
          rd.isCounter = isCounterMetric rd.metricsType ∧
          (isCounterMetric rd.metricsType = true →
            rd.accumulated = s.current ∧ rd.value = sub64 s.current s.min) ∧
          (isCounterMetric rd.metricsType = false →
            rd.value = s.current ∧ rd.min = s.min ∧ rd.max = s.max ∧
            rd.avg = s.avg))) ∧
    (∀ (W : FabricWorld) (deviceId cap : Nat) (md : FabricMD),
      W.fabricStats = some md →
      ∀ st ∈ (getFabricThroughputStatistics W deviceId (some cap)).rows,
      ∃ fid m info rid, (fid, m) ∈ md.entities ∧ W.fabricInfoOf fid = some info ∧
        W.deviceIdByFabricId info.remote_fabric_id = some rid ∧
        st.ftype = info.ftype ∧
        ((info.ftype = FabricThroughputType.TRANSMITTED_COUNTER ∨
            info.ftype = FabricThroughputType.RECEIVED_COUNTER) →
          st.value = sub64 m.current m.min ∧ st.accumulated = m.current ∧
          st.scale = 1) ∧
        (¬(info.ftype = FabricThroughputType.TRANSMITTED_COUNTER ∨
            info.ftype = FabricThroughputType.RECEIVED_COUNTER) →
          st.value = m.current ∧ st.min = m.min ∧ st.avg = m.avg ∧
          st.max = m.max ∧ st.scale = md.scale)) := by
  constructor
  · intro W deviceId cap row rd hrow hrd
    cases hdev : W.devices deviceId with
    | none =>
      simp only [getMetricsStatistics, hdev] at hrow
      exact absurd hrow (List.not_mem_nil row)
    | some dev =>
      simp only [getMetricsStatistics, hdev] at hrow
      rcases writeAll_mem _ cap 0 [] row hrow with h0 | h1
      · exact absurd h0 (List.not_mem_nil row)
      · rcases List.mem_cons.mp h1 with hd | ht
        · subst hd
          obtain ⟨t, md, hg, hhas, hrdeq⟩ := deviceRowData_mem hrd
          subst hrdeq
          obtain ⟨m1, m2, m3, m4, m5⟩ := mkStatsData_spec t md
          refine ⟨dev, md, rfl, ?_, m3, ?_, ?_⟩
          · rw [m1]; exact hg
          · intro _
            rw [m1]
            exact ⟨m2, m4, m5⟩
          · intro hti
            simp at hti
        · rcases List.mem_map.mp ht with ⟨i, hi, hre⟩
          subst hre
          obtain ⟨t, md, s, hg, hlk, hns, hrdeq⟩ := tileRowData_mem hrd
          subst hrdeq
          obtain ⟨m1, m2, m3, m4, m5⟩ := mkSubStatsData_spec t md s
          refine ⟨dev, md, rfl, ?_, m3, ?_, ?_⟩
          · rw [m1]; exact hg
          · intro hti
            simp at hti
          · intro _
            refine ⟨s, hlk, ?_⟩
            rw [m1]
            exact ⟨m2, m4, m5⟩
  · intro W deviceId cap md hmd st hst
    cases hdevf : W.devices deviceId with
    | none =>
      simp only [getFabricThroughputStatistics, hdevf] at hst
      exact absurd hst (List.not_mem_nil st)
    | some dev =>
      simp only [getFabricThroughputStatistics, hdevf, hmd] at hst
      split at hst
      · exact absurd hst (List.not_mem_nil st)
      · split at hst
        · exact absurd hst (List.not_mem_nil st)
        · split at hst
          · exact absurd hst (List.not_mem_nil st)
          · split at hst
            · exact absurd hst (List.not_mem_nil st)
            · split at hst
              · exact absurd hst (List.not_mem_nil st)
              · have hst' : st ∈ (fabricStatsLoop W deviceId md.scale md.entities []).2 := by
                  split at hst
                  · exact hst
                  · exact hst
                rcases fabricStatsLoop_mem W deviceId md.scale md.entities [] st hst' with
                  h | ⟨fid, m, info, rid, hm, hi, hr, he⟩
                · exact absurd h (List.not_mem_nil st)
                · subst he
                  obtain ⟨f1, f2, f3⟩ := mkFabricStatsRow_spec deviceId md.scale info rid m
                  exact ⟨fid, m, info, rid, hm, hi, hr, f1, f2, f3⟩

/-- The statistics sample of the C6 witness: a counter metric with
device-level data and one tile slice. -/
def md6 : StatsMD := StatsMD.mk true 2 50 10 90 40 0 [(0, SubStats.mk 30 5 60 20)]

/-- A concrete statistics world for the C6 witness. -/
def W6 : StatsWorld :=
  StatsWorld.mk
    (fun i => if i = 0 then some (DeviceInfo.mk 1 [DeviceCapability.METRIC_ENERGY]) else none)
    [MeasurementType.METRIC_ENERGY]
    (fun t _ => if t = MeasurementType.METRIC_ENERGY then some md6 else none)
    (fun _ => none) (StatsMD.mk false 1 0 0 0 0 0 []) 0 0

/-- The device-level row the C6 witness inspects. -/
def W6row : DeviceStatsRow :=
  DeviceStatsRow.mk 0 0 false
    [StatsRowData.mk MeasurementType.METRIC_ENERGY true 40 50 0 0 0 2]

/-- The counter row datum of the C6 witness: accumulated 50, value 50-10. -/
def W6rd : StatsRowData := StatsRowData.mk MeasurementType.METRIC_ENERGY true 40 50 0 0 0 2

/-- The fabric entity of the C6 witness. -/
def m6f : FabricEntity := FabricEntity.mk 5 1 9 3

/-- The topology record of the C6 fabric witness; the remote fabric id 7
resolves to device 2. -/
def info6f : FabricInfo := FabricInfo.mk 0 7 1 FabricThroughputType.TRANSMITTED_COUNTER

/-- The fabric sample of the C6 witness. -/
def md6f : FabricMD := FabricMD.mk 20 10 [(4, m6f)]

/-- A concrete fabric world for the C6 witness. -/
def W6f : FabricWorld :=
  FabricWorld.mk
    (fun i => if i = 0 then
      some (FabricDeviceInfo.mk 1 [DeviceCapability.METRIC_FABRIC_THROUGHPUT]) else none)
    [MeasurementType.METRIC_FABRIC_THROUGHPUT] (some md6f) (some md6f)
    (fun fid => if fid = 4 then some info6f else none)
    (fun fid => if fid = 7 then some 2 else none) 0 0

/-- The counter-type fabric row of the C6 witness: value 5-1 at scale 1. -/
def W6st : FabricStatsRow :=
  FabricStatsRow.mk 0 0 2 1 FabricThroughputType.TRANSMITTED_COUNTER 4 5 0 0 0 1

/-- C6 witness: the emitted counter row of the concrete statistics call
carries accumulated 50 and value 40 = 50 - 10 at scale 2, and the emitted
counter-type fabric row carries value 4 = 5 - 1, accumulated 5, scale 1. -/
theorem claim_C6_witness :
    (W6row ∈ (getMetricsStatistics W6 0 (some 2)).rows ∧ W6rd ∈ W6row.data ∧
      (∃ dev md, W6.devices 0 = some dev ∧
        (W6rd.metricsType, md) ∈ gatherStats W6 dev ∧
        W6rd.scale = md.scale ∧
        (W6row.isTileData = false →
          W6rd.isCounter = isCounterMetric W6rd.metricsType ∧
          (isCounterMetric W6rd.metricsType = true →
            W6rd.accumulated = md.current ∧ W6rd.value = sub64 md.current md.min) ∧
          (isCounterMetric W6rd.metricsType = false →
            W6rd.value = md.current ∧ W6rd.min = md.min ∧ W6rd.max = md.max ∧
            W6rd.avg = md.avg)) ∧
        (W6row.isTileData = true → ∃ s, alookup W6row.tileId md.sub = some s ∧
          W6rd.isCounter = isCounterMetric W6rd.metricsType ∧
          (isCounterMetric W6rd.metricsType = true →
            W6rd.accumulated = s.current ∧ W6rd.value = sub64 s.current s.min) ∧
          (isCounterMetric W6rd.metricsType = false →
            W6rd.value = s.current ∧ W6rd.min = s.min ∧ W6rd.max = s.max ∧
            W6rd.avg = s.avg)))) ∧
    (W6f.fabricStats = some md6f ∧
      W6st ∈ (getFabricThroughputStatistics W6f 0 (some 1)).rows ∧
      (∃ fid m info rid, (fid, m) ∈ md6f.entities ∧ W6f.fabricInfoOf fid = some info ∧
        W6f.deviceIdByFabricId info.remote_fabric_id = some rid ∧
        W6st.ftype = info.ftype ∧
        ((info.ftype = FabricThroughputType.TRANSMITTED_COUNTER ∨
            info.ftype = FabricThroughputType.RECEIVED_COUNTER) →
          W6st.value = sub64 m.current m.min ∧ W6st.accumulated = m.current ∧
          W6st.scale = 1) ∧
        (¬(info.ftype = FabricThroughputType.TRANSMITTED_COUNTER ∨
            info.ftype = FabricThroughputType.RECEIVED_COUNTER) →
          W6st.value = m.current ∧ W6st.min = m.min ∧ W6st.avg = m.avg ∧
          W6st.max = m.max ∧ W6st.scale = md6f.scale))) :=
  ⟨⟨by decide, by decide, claim_C6.1 W6 0 2 W6row W6rd (by decide) (by decide)⟩,
   ⟨rfl, by decide, claim_C6.2 W6f 0 1 md6f rfl W6st (by decide)⟩⟩

end Xpum
